import Mathlib

/-!
Verification development for the `node-sendspin` TypeScript implementation of
the Sendspin protocol (WebSocket-based synchronized multi-room audio).

The definitions below are a shallow embedding of the relevant source files:

* `src/binary.ts` — 9-byte binary frame header codec (`Sendspin.Binary`);
* `src/time-filter.ts` — the 2-D Kalman time filter (`Sendspin.TimeFilter`);
* `src/client.ts` — client-side stream handling and source-audio upload
  (`Sendspin.Client`);
* server `session.ts` — per-connection server session: hello handshake,
  role resolution, identification, backpressure-guarded sends
  (`Sendspin.Session`);
* server `core.ts` — the session registry lookup (`Sendspin.Core`).

JavaScript `number` values are modelled as `ℚ` (exact rational arithmetic in
place of IEEE-754 doubles) or `ℤ` where the source only ever holds integers;
byte buffers are `List ℕ` with every element `< 256`; thrown exceptions are
`Except`/`Option` results.
-/

namespace Sendspin

/-- `Math.round` in JavaScript: round half towards positive infinity,
`Math.round x = ⌊x + 1/2⌋`. -/
def jsRound (q : ℚ) : ℤ := ⌊q + 1/2⌋

namespace Binary

/-- `BINARY_HEADER_SIZE = 9` from `src/binary.ts`. -/
def BINARY_HEADER_SIZE : ℕ := 9

/-- The decoded header: `{ messageType, timestampUs }` from `src/binary.ts`. -/
structure BinaryHeader where
  messageType : ℕ
  timestampUs : ℤ
  deriving DecidableEq, Repr

/-- Binary message type tags from `types.ts` (`BinaryMessageType`). -/
def AUDIO_CHUNK : ℕ := 4
/-- `ARTWORK_CHANNEL_0 = 8`. -/
def ARTWORK_CHANNEL_0 : ℕ := 8
/-- `SOURCE_AUDIO_CHUNK = 12`. -/
def SOURCE_AUDIO_CHUNK : ℕ := 12
/-- `VISUALIZATION_DATA = 16`. -/
def VISUALIZATION_DATA : ℕ := 16

/-- `buffer.writeBigInt64BE(BigInt(ts), 1)`: the timestamp reduced to 64 bits
(two's complement) and laid out as 8 big-endian bytes.  Node throws a
`RangeError` for timestamps outside `[-2^63, 2^63)`; the theorems below only
quantify over that range, where the reduction is lossless. -/
def writeBigInt64BE (ts : ℤ) : List ℕ :=
  let u : ℕ := (ts % (2 ^ 64 : ℤ)).toNat
  [u / 2 ^ 56 % 256, u / 2 ^ 48 % 256, u / 2 ^ 40 % 256, u / 2 ^ 32 % 256,
   u / 2 ^ 24 % 256, u / 2 ^ 16 % 256, u / 2 ^ 8 % 256, u % 256]

/-- `buffer.readBigInt64BE(1)`: reassemble 8 big-endian bytes into an unsigned
value and reinterpret as a signed 64-bit integer. -/
def readBigInt64BE (b0 b1 b2 b3 b4 b5 b6 b7 : ℕ) : ℤ :=
  let u : ℕ := b0 * 2 ^ 56 + b1 * 2 ^ 48 + b2 * 2 ^ 40 + b3 * 2 ^ 32 +
               b4 * 2 ^ 24 + b5 * 2 ^ 16 + b6 * 2 ^ 8 + b7
  if u < 2 ^ 63 then (u : ℤ) else (u : ℤ) - 2 ^ 64

/-- `packBinaryHeader` from `src/binary.ts`: 9 bytes, byte 0 the message type
(`writeUInt8`), bytes 1..9 the timestamp as big-endian signed 64-bit. -/
def packBinaryHeader (header : BinaryHeader) : List ℕ :=
  header.messageType % 256 :: writeBigInt64BE header.timestampUs

/-- `packBinaryHeaderRaw(messageType, timestampUs)` from `src/binary.ts`. -/
def packBinaryHeaderRaw (messageType : ℕ) (timestampUs : ℤ) : List ℕ :=
  packBinaryHeader { messageType := messageType, timestampUs := timestampUs }

/-- `unpackBinaryHeader` from `src/binary.ts`: fails (`none`, modelling the
thrown `Error`) on buffers shorter than 9 bytes, otherwise reads byte 0 as the
type and bytes 1..8 as the big-endian signed 64-bit timestamp. -/
def unpackBinaryHeader (data : List ℕ) : Option BinaryHeader :=
  match data with
  | b0 :: b1 :: b2 :: b3 :: b4 :: b5 :: b6 :: b7 :: b8 :: _ =>
      some { messageType := b0 % 256,
             timestampUs := readBigInt64BE b1 b2 b3 b4 b5 b6 b7 b8 }
  | _ => none

theorem writeBigInt64BE_length (ts : ℤ) : (writeBigInt64BE ts).length = 8 := rfl

theorem readBigInt64BE_writeBigInt64BE (ts : ℤ)
    (hlo : -(2 ^ 63) ≤ ts) (hhi : ts < 2 ^ 63) :
    readBigInt64BE
      ((ts % (2 ^ 64 : ℤ)).toNat / 2 ^ 56 % 256) ((ts % (2 ^ 64 : ℤ)).toNat / 2 ^ 48 % 256)
      ((ts % (2 ^ 64 : ℤ)).toNat / 2 ^ 40 % 256) ((ts % (2 ^ 64 : ℤ)).toNat / 2 ^ 32 % 256)
      ((ts % (2 ^ 64 : ℤ)).toNat / 2 ^ 24 % 256) ((ts % (2 ^ 64 : ℤ)).toNat / 2 ^ 16 % 256)
      ((ts % (2 ^ 64 : ℤ)).toNat / 2 ^ 8 % 256) ((ts % (2 ^ 64 : ℤ)).toNat % 256) = ts := by
  have hmod : ts % (2 ^ 64 : ℤ) = if 0 ≤ ts then ts else ts + 2 ^ 64 := by
    split
    · exact Int.emod_eq_of_lt (by assumption) (by linarith)
    · omega
  unfold readBigInt64BE
  set u : ℕ := (ts % (2 ^ 64 : ℤ)).toNat with hu
  have hub : u < 2 ^ 64 := by
    have h1 : ts % (2 ^ 64 : ℤ) < 2 ^ 64 := Int.emod_lt_of_pos ts (by norm_num)
    omega
  have hrecon : u / 2 ^ 56 % 256 * 2 ^ 56 + u / 2 ^ 48 % 256 * 2 ^ 48 +
      u / 2 ^ 40 % 256 * 2 ^ 40 + u / 2 ^ 32 % 256 * 2 ^ 32 +
      u / 2 ^ 24 % 256 * 2 ^ 24 + u / 2 ^ 16 % 256 * 2 ^ 16 +
      u / 2 ^ 8 % 256 * 2 ^ 8 + u % 256 = u := by omega
  rw [hrecon]
  have husigned : (u : ℤ) = ts % (2 ^ 64 : ℤ) := by
    have h0 : (0:ℤ) ≤ ts % (2 ^ 64 : ℤ) := Int.emod_nonneg ts (by norm_num)
    omega
  show (if u < 2 ^ 63 then (u : ℤ) else (u : ℤ) - 2 ^ 64) = ts
  split_ifs with h <;> omega

theorem unpackBinaryHeader_packBinaryHeader (type : ℕ) (ts : ℤ)
    (htype : type < 256) (hlo : -(2 ^ 63) ≤ ts) (hhi : ts < 2 ^ 63) :
    unpackBinaryHeader (packBinaryHeader ⟨type, ts⟩) = some ⟨type, ts⟩ := by
  have hmod : type % 256 = type := Nat.mod_eq_of_lt htype
  simp only [packBinaryHeader, writeBigInt64BE, unpackBinaryHeader, hmod]
  exact congrArg some
    (congrArg (BinaryHeader.mk type) (readBigInt64BE_writeBigInt64BE ts hlo hhi))

end Binary

namespace TimeFilter

/-- `ADAPTIVE_FORGETTING_CUTOFF = 0.75` from `src/time-filter.ts`. -/
def ADAPTIVE_FORGETTING_CUTOFF : ℚ := 3 / 4

/-- The `TimeElement` snapshot (`current`) from `src/time-filter.ts`. -/
structure TimeElement where
  lastUpdate : ℚ
  offset : ℚ
  drift : ℚ
  deriving DecidableEq, Repr

/-- State of `SendspinTimeFilter` from `src/time-filter.ts`.

JavaScript numbers are modelled as exact rationals.  The constructor
initialises `offsetCovariance = Number.POSITIVE_INFINITY`; that sentinel is
modelled by the flag `offsetCovarianceInf` (value field ignored while the flag
is set).  The `count = 0` bootstrap branch of `update` always replaces the
sentinel with the finite measurement variance before any branch that reads
`offsetCovariance` can run, so on every state reachable from the constructor
the arithmetic below coincides with the source's float arithmetic (up to
IEEE-754 rounding, which the rational model idealises away).  Rational
division by zero yields `0` where IEEE would yield `±∞`; no verified trace
divides by zero. -/
structure SendspinTimeFilter where
  lastUpdate : ℚ
  count : ℕ
  offset : ℚ
  drift : ℚ
  offsetCovarianceInf : Bool
  offsetCovariance : ℚ
  offsetDriftCovariance : ℚ
  driftCovariance : ℚ
  processVariance : ℚ
  forgetVarianceFactor : ℚ
  current : TimeElement
  deriving DecidableEq, Repr

/-- The constructor with its default arguments
(`processStdDev = 0.01`, `forgetFactor = 1.001`). -/
def mkSendspinTimeFilter : SendspinTimeFilter :=
  { lastUpdate := 0
    count := 0
    offset := 0
    drift := 0
    offsetCovarianceInf := true
    offsetCovariance := 0
    offsetDriftCovariance := 0
    driftCovariance := 0
    processVariance := (1 / 100) * (1 / 100)
    forgetVarianceFactor := (1001 / 1000) * (1001 / 1000)
    current := { lastUpdate := 0, offset := 0, drift := 0 } }

/-- `SendspinTimeFilter.update(measurement, maxError, timeAdded)` from
`src/time-filter.ts`.  The JavaScript `count` is a counter that is `0`
initially and only ever incremented, so `this.count <= 0` is modelled as
`count = 0`. -/
def update (f : SendspinTimeFilter) (measurement maxError timeAdded : ℚ) :
    SendspinTimeFilter :=
  if timeAdded = f.lastUpdate then f
  else
    let dt := timeAdded - f.lastUpdate
    let measurementVariance := maxError * maxError
    if f.count = 0 then
      { f with
        lastUpdate := timeAdded
        count := f.count + 1
        offset := measurement
        offsetCovarianceInf := false
        offsetCovariance := measurementVariance
        drift := 0
        current := { lastUpdate := timeAdded, offset := measurement, drift := 0 } }
    else if f.count = 1 then
      let drift := (measurement - f.offset) / dt
      { f with
        lastUpdate := timeAdded
        count := f.count + 1
        drift := drift
        offset := measurement
        driftCovariance := (f.offsetCovariance + measurementVariance) / dt
        offsetCovarianceInf := false
        offsetCovariance := measurementVariance
        current := { lastUpdate := timeAdded, offset := measurement, drift := drift } }
    else
      let offsetPrediction := f.offset + f.drift * dt
      let dtSquared := dt * dt
      let newDriftCovariance := f.driftCovariance + 0
      let newOffsetDriftCovariance := f.offsetDriftCovariance + f.driftCovariance * dt
      let offsetProcessVariance := dt * f.processVariance
      let newOffsetCovariance :=
        f.offsetCovariance + 2 * f.offsetDriftCovariance * dt +
          f.driftCovariance * dtSquared + offsetProcessVariance
      let residual := measurement - offsetPrediction
      let maxResidualCutoff := maxError * ADAPTIVE_FORGETTING_CUTOFF
      let forget : Bool := ¬ f.count < 100 ∧ residual > maxResidualCutoff
      let count' := if f.count < 100 then f.count + 1 else f.count
      let newDriftCovariance' :=
        if forget then newDriftCovariance * f.forgetVarianceFactor else newDriftCovariance
      let newOffsetDriftCovariance' :=
        if forget then newOffsetDriftCovariance * f.forgetVarianceFactor
        else newOffsetDriftCovariance
      let newOffsetCovariance' :=
        if forget then newOffsetCovariance * f.forgetVarianceFactor else newOffsetCovariance
      let uncertainty := 1 / (newOffsetCovariance' + measurementVariance)
      let offsetGain := newOffsetCovariance' * uncertainty
      let driftGain := newOffsetDriftCovariance' * uncertainty
      let offset' := offsetPrediction + offsetGain * residual
      let drift' := f.drift + driftGain * residual
      { f with
        lastUpdate := timeAdded
        count := count'
        offset := offset'
        drift := drift'
        driftCovariance := newDriftCovariance' - driftGain * newOffsetDriftCovariance'
        offsetDriftCovariance := newOffsetDriftCovariance' - driftGain * newOffsetCovariance'
        offsetCovariance := newOffsetCovariance' - offsetGain * newOffsetCovariance'
        current := { lastUpdate := timeAdded, offset := offset', drift := drift' } }

/-- The rounded offset `Math.round(current.offset + current.drift * dt)`
computed inside `computeServerTime`. -/
def computeServerTimeOffset (f : SendspinTimeFilter) (clientTime : ℚ) : ℤ :=
  jsRound (f.current.offset + f.current.drift * (clientTime - f.current.lastUpdate))

/-- `computeServerTime(clientTime)` from `src/time-filter.ts`:
`clientTime + Math.round(current.offset + current.drift * dt)`. -/
def computeServerTime (f : SendspinTimeFilter) (clientTime : ℚ) : ℚ :=
  clientTime + (computeServerTimeOffset f clientTime : ℚ)

/-- `computeClientTime(serverTime)` from `src/time-filter.ts`:
`Math.round((serverTime - current.offset + current.drift * current.lastUpdate)
/ (1 + current.drift))`. -/
def computeClientTime (f : SendspinTimeFilter) (serverTime : ℚ) : ℤ :=
  jsRound ((serverTime - f.current.offset + f.current.drift * f.current.lastUpdate) /
    (1 + f.current.drift))

/-- `reset()` from `src/time-filter.ts`. -/
def reset (f : SendspinTimeFilter) : SendspinTimeFilter :=
  { f with
    count := 0
    offset := 0
    drift := 0
    offsetCovarianceInf := true
    offsetCovariance := 0
    offsetDriftCovariance := 0
    driftCovariance := 0
    current := { lastUpdate := 0, offset := 0, drift := 0 } }

/-- `get isSynchronized()`: `count >= 2 && Number.isFinite(offsetCovariance)`.
On the rational model only the constructor's `POSITIVE_INFINITY` sentinel is
non-finite. -/
def isSynchronized (f : SendspinTimeFilter) : Bool :=
  2 ≤ f.count ∧ ¬ f.offsetCovarianceInf

/-- `Number.isFinite(filter.error)` where
`get error() { return Math.round(Math.sqrt(this.offsetCovariance)); }`:
the rounded square root is a finite number iff `offsetCovariance` is finite
and nonnegative (`Math.sqrt` of a negative number is `NaN`, of `+∞` is `+∞`,
and `Math.round` preserves `NaN`/`∞`). -/
def errorFinite (f : SendspinTimeFilter) : Bool :=
  ¬ f.offsetCovarianceInf ∧ 0 ≤ f.offsetCovariance

end TimeFilter

/-- `AudioCodec` from `types.ts`. -/
inductive AudioCodec where
  | opus
  | flac
  | pcm
  deriving DecidableEq, Repr

/-- `ConnectionReason` from `types.ts`. -/
inductive ConnectionReason where
  | discovery
  | playback
  deriving DecidableEq, Repr

namespace Client

/-- `PCMFormat` from `src/client.ts` (constructor validation succeeded). -/
structure PCMFormat where
  sampleRate : ℚ
  channels : ℚ
  bitDepth : ℚ
  deriving DecidableEq, Repr

/-- The `PCMFormat` constructor from `src/client.ts`: throws (`none`) unless
`sampleRate > 0`, `channels ∈ {1, 2}` and `bitDepth ∈ {16, 24, 32}`. -/
def mkPCMFormat (sampleRate channels bitDepth : ℚ) : Option PCMFormat :=
  if sampleRate ≤ 0 then none
  else if channels < 1 ∨ 2 < channels then none
  else if ¬(bitDepth = 16 ∨ bitDepth = 24 ∨ bitDepth = 32) then none
  else some { sampleRate := sampleRate, channels := channels, bitDepth := bitDepth }

/-- `AudioFormat` from `src/client.ts`; the optional codec header is kept as
its decoded bytes. -/
structure AudioFormat where
  codec : AudioCodec
  pcm : PCMFormat
  codecHeader : Option (List ℕ)
  deriving DecidableEq, Repr

/-- The `player` block of a `stream/start` payload (`StreamStartPlayer` in
`types.ts`); `codec_header` is modelled by its base64-decoded bytes. -/
structure StreamStartPlayer where
  codec : AudioCodec
  sample_rate : ℚ
  channels : ℚ
  bit_depth : ℚ
  codec_header : Option (List ℕ)
  deriving DecidableEq, Repr

/-- The client state from `src/client.ts` restricted to the fields the claims
touch.  `connected` models `isConnected` (the `connected` flag together with
the socket being OPEN); `sentBinary` records the payloads passed to `ws.send`;
`audioChunksDelivered` records the `(timestampUs, data, format)` triples
forwarded to audio-chunk listeners; the two counters record how many times the
stream-start listeners were notified and how many `client/time` messages were
sent. -/
structure SendspinClient where
  connected : Bool
  timeFilter : TimeFilter.SendspinTimeFilter
  staticDelayUs : ℤ
  streamActive : Bool
  currentAudioFormat : Option AudioFormat
  currentPlayer : Option StreamStartPlayer
  streamStartNotifications : ℕ
  timeMessagesSent : ℕ
  audioChunksDelivered : List (ℤ × List ℕ × AudioFormat)
  sentBinary : List (List ℕ)
  deriving DecidableEq, Repr

/-- A freshly constructed, connected client before any `server/time` was
received: the time filter is the constructor default. -/
def freshClient : SendspinClient :=
  { connected := true
    timeFilter := TimeFilter.mkSendspinTimeFilter
    staticDelayUs := 0
    streamActive := false
    currentAudioFormat := none
    currentPlayer := none
    streamStartNotifications := 0
    timeMessagesSent := 0
    audioChunksDelivered := []
    sentBinary := [] }

/-- `SendspinClient.computeServerTime(clientTimestampUs)` from
`src/client.ts`: projects through the filter after subtracting the static
delay. -/
def computeServerTime (c : SendspinClient) (clientTimestampUs : ℚ) : ℚ :=
  TimeFilter.computeServerTime c.timeFilter (clientTimestampUs - (c.staticDelayUs : ℚ))

/-- `SendspinClient.computeSourceTimestamp` from `src/client.ts`:
`this.timeFilter.computeServerTime(captureTimestampUs)` — the raw filter
projection, with no static-delay adjustment.  For an integer capture
timestamp this is the timestamp plus the rounded projected offset. -/
def computeSourceTimestamp (c : SendspinClient) (captureTimestampUs : ℤ) : ℤ :=
  captureTimestampUs + TimeFilter.computeServerTimeOffset c.timeFilter captureTimestampUs

/-- The errors `sendSourceAudioChunk` can throw. -/
inductive SourceChunkError where
  | notConnected
  | missingTimestamp
  | notSynchronized
  deriving DecidableEq, Repr

/-- `SendspinClient.sendSourceAudioChunk(audioData, opts)` from
`src/client.ts`: the thrown error, or the binary frame handed to
`this.sendBinary` (header with tag `SOURCE_AUDIO_CHUNK` followed by the audio
bytes). -/
def sendSourceAudioChunk (c : SendspinClient) (audioData : List ℕ)
    (captureTimestampUs serverTimestampUs : Option ℤ) :
    Except SourceChunkError (List ℕ) :=
  if ¬ c.connected then .error .notConnected
  else
    match serverTimestampUs with
    | some timestampUs =>
        .ok (Binary.packBinaryHeaderRaw Binary.SOURCE_AUDIO_CHUNK timestampUs ++ audioData)
    | none =>
        match captureTimestampUs with
        | none => .error .missingTimestamp
        | some capture =>
            if ¬ TimeFilter.isSynchronized c.timeFilter then .error .notSynchronized
            else
              .ok (Binary.packBinaryHeaderRaw Binary.SOURCE_AUDIO_CHUNK
                    (computeSourceTimestamp c capture) ++ audioData)

/-- `SendspinClient.handleStreamStart` from `src/client.ts`, for a payload
whose `player` block is `player?`.  `streamActive` is set before the
`PCMFormat` constructor runs; if construction throws (invalid channels or bit
depth), the exception propagates and none of the remaining statements run, so
`currentAudioFormat`, `currentPlayer`, the stream-start listeners and the
`client/time` kick are all left untouched. -/
def handleStreamStart (c : SendspinClient) (player? : Option StreamStartPlayer) :
    SendspinClient :=
  match player? with
  | none => c
  | some player =>
      let isFormatUpdate := c.streamActive ∧ c.currentPlayer.isSome
      let c1 := { c with streamActive := true }
      match mkPCMFormat player.sample_rate player.channels player.bit_depth with
      | none => c1
      | some pcmFormat =>
          let c2 := { c1 with
            currentAudioFormat :=
              some { codec := player.codec, pcm := pcmFormat,
                     codecHeader := player.codec_header }
            currentPlayer := some player }
          if isFormatUpdate then c2
          else
            { c2 with
              streamStartNotifications := c2.streamStartNotifications + 1
              timeMessagesSent := c2.timeMessagesSent + 1 }

/-- `SendspinClient.handleAudioChunk` from `src/client.ts`: dropped unless an
audio format has been configured. -/
def handleAudioChunk (c : SendspinClient) (timestampUs : ℤ) (payload : List ℕ) :
    SendspinClient :=
  match c.currentAudioFormat with
  | none => c
  | some format =>
      { c with audioChunksDelivered :=
          c.audioChunksDelivered ++ [(timestampUs, payload, format)] }

/-- `SendspinClient.handleBinaryMessage` from `src/client.ts`: short headers
are dropped, frames are ignored while no stream is active, and only
`AUDIO_CHUNK` frames are dispatched. -/
def handleBinaryMessage (c : SendspinClient) (payload : List ℕ) : SendspinClient :=
  match Binary.unpackBinaryHeader payload with
  | none => c
  | some header =>
      if ¬ c.streamActive then c
      else if header.messageType = Binary.AUDIO_CHUNK then
        handleAudioChunk c header.timestampUs (payload.drop Binary.BINARY_HEADER_SIZE)
      else c

end Client

namespace Session

/-- An entry of a hello payload's `supported_roles` array: a JSON string or a
non-string JSON value (the resolver skips the latter). -/
inductive RoleEntry where
  | str (role : String)
  | nonString
  deriving DecidableEq, Repr

/-- The `client/hello` payload as the server-side `handleHello` inspects it
(`payload: any` in the session source).  Each `Option` field is `some` exactly
when the corresponding `typeof`/`Array.isArray` guard in the source passes;
each `*Support : Bool` is the truthiness of
`payload['<family>@v1_support'] ?? payload.<family>_support ?? null`. -/
structure HelloPayload where
  version : Option ℚ
  client_id : Option String
  name : Option String
  supported_roles : Option (List RoleEntry)
  playerSupport : Bool
  artworkSupport : Bool
  visualizerSupport : Bool
  sourceSupport : Bool
  deriving DecidableEq, Repr

/-- The server-supported role set from `resolveActiveRoles`. -/
def serverSupportedRoles : List String :=
  ["player@v1", "controller@v1", "metadata@v1", "artwork@v1", "visualizer@v1", "source@v1"]

/-- Characters before the first `'@'` (all of them when none occurs). -/
def roleFamilyChars : List Char → List Char
  | [] => []
  | c :: rest => if c = '@' then [] else c :: roleFamilyChars rest

/-- `role.split('@')[0]`: the role family. -/
def roleFamily (role : String) : String := ⟨roleFamilyChars role.data⟩

/-- `role.startsWith('_')`. -/
def startsWithUnderscore (role : String) : Bool :=
  match role.data with
  | [] => false
  | c :: _ => c = '_'

/-- The ASCII whitespace characters trimmed by the JavaScript
`String.prototype.trim` (the Unicode space separators it also strips never
occur in the verified traces). -/
def isJsWhitespace (c : Char) : Bool :=
  c = ' ' ∨ c = '\t' ∨ c = '\n' ∨ c = '\r' ∨ c = '\x0b' ∨ c = '\x0c'

/-- JavaScript `s.trim()`: strip leading and trailing whitespace. -/
def jsTrim (s : String) : String :=
  ⟨(((s.data.dropWhile isJsWhitespace).reverse.dropWhile isJsWhitespace).reverse)⟩

/-- Recursive worker for `resolveActiveRoles`, carrying the `seenFamilies`
set (as a list). -/
def resolveActiveRolesGo : List RoleEntry → List String → List String × List String
  | [], _ => ([], [])
  | RoleEntry.nonString :: rest, seenFamilies => resolveActiveRolesGo rest seenFamilies
  | RoleEntry.str role :: rest, seenFamilies =>
      if role ∈ serverSupportedRoles then
        if roleFamily role ∈ seenFamilies then resolveActiveRolesGo rest seenFamilies
        else
          let next := resolveActiveRolesGo rest (roleFamily role :: seenFamilies)
          (role :: next.1, next.2)
      else if startsWithUnderscore role then resolveActiveRolesGo rest seenFamilies
      else
        let next := resolveActiveRolesGo rest seenFamilies
        (next.1, role :: next.2)

/-- `SendspinSession.resolveActiveRoles` from the server session source:
returns `(activeRoles, unsupportedRoles)`. -/
def resolveActiveRoles (supportedRoles : List RoleEntry) : List String × List String :=
  resolveActiveRolesGo supportedRoles []

/-- Keep the first role of each family, dropping later roles whose family was
already seen (specification device used to characterise `activeRoles`). -/
def dedupByFamilyGo : List String → List String → List String
  | [], _ => []
  | role :: rest, seenFamilies =>
      if roleFamily role ∈ seenFamilies then dedupByFamilyGo rest seenFamilies
      else role :: dedupByFamilyGo rest (roleFamily role :: seenFamilies)

/-- `dedupByFamilyGo` from the empty seen-set. -/
def dedupByFamily (roles : List String) : List String := dedupByFamilyGo roles []

/-- The string entries of `supported_roles` that are in the server-supported
set (specification device). -/
def supportedStringEntries : List RoleEntry → List String
  | [] => []
  | RoleEntry.nonString :: rest => supportedStringEntries rest
  | RoleEntry.str role :: rest =>
      if role ∈ serverSupportedRoles then role :: supportedStringEntries rest
      else supportedStringEntries rest

/-- The string entries that are unknown and not underscore-prefixed
(specification device used to characterise `unsupportedRoles`). -/
def unknownStringEntries : List RoleEntry → List String
  | [] => []
  | RoleEntry.nonString :: rest => unknownStringEntries rest
  | RoleEntry.str role :: rest =>
      if role ∈ serverSupportedRoles then unknownStringEntries rest
      else if startsWithUnderscore role then unknownStringEntries rest
      else role :: unknownStringEntries rest

/-- `MAX_BUFFERED`: `this.maxBufferedSend = 1024 * 512`. -/
def maxBufferedSend : ℕ := 1024 * 512

/-- Server-side session state (`SendspinSession` in the server session
source), restricted to the fields the claims touch, together with the
observable effects on the WebSocket transport:

* `wsOpen` / `wsBufferedAmount` — the transport's `readyState === OPEN` flag
  and `bufferedAmount`, read (never written) by the session;
* `wsBinarySent` — the binary payloads passed to `ws.send`;
* `wsCloseCalls` — the `ws.close(...)` calls issued (`none` for the
  argument-less `close()`);
* `identifiedNotifications` — how many times `hooks.onIdentified` was
  invoked; `hasOnIdentified` is the presence of that hook.

Stream-format negotiation, JSON replies, and the millisecond wall-clock
fields of the backpressure ledger (`lastBackpressureTs`,
`backpressureEvents`) are outside every claim and not modelled. -/
structure SessionState where
  wsOpen : Bool
  wsBufferedAmount : ℕ
  wsBinarySent : List (List ℕ)
  wsCloseCalls : List (Option (ℕ × String))
  ready : Bool
  clientId : Option String
  clientName : Option String
  roles : List String
  initialStateRequired : Bool
  initialStateReceived : Bool
  initialStateTimerArmed : Bool
  identified : Bool
  hasOnIdentified : Bool
  identifiedNotifications : ℕ
  hooksAttached : Bool
  activeStream : Bool
  connectionReason : ConnectionReason
  backpressureDrops : ℕ
  lastBackpressureBytes : ℕ
  deriving DecidableEq, Repr

/-- A freshly constructed session on an open transport, as built by the
registry's `handleConnection` (constructor hooks may or may not carry an
`onIdentified` callback). -/
def initialSession (reason : ConnectionReason) (hasOnIdentified : Bool)
    (buffered : ℕ) : SessionState :=
  { wsOpen := true
    wsBufferedAmount := buffered
    wsBinarySent := []
    wsCloseCalls := []
    ready := false
    clientId := none
    clientName := none
    roles := []
    initialStateRequired := false
    initialStateReceived := false
    initialStateTimerArmed := false
    identified := false
    hasOnIdentified := hasOnIdentified
    identifiedNotifications := 0
    hooksAttached := false
    activeStream := false
    connectionReason := reason
    backpressureDrops := 0
    lastBackpressureBytes := 0 }

/-- `this.ws.close(code, reason)`: record the call; `readyState` leaves OPEN. -/
def closeWs (s : SessionState) (code : ℕ) (reason : String) : SessionState :=
  { s with wsCloseCalls := s.wsCloseCalls ++ [some (code, reason)], wsOpen := false }

/-- `this.ws.close()` with no arguments (goodbye handling). -/
def closeWsPlain (s : SessionState) : SessionState :=
  { s with wsCloseCalls := s.wsCloseCalls ++ [none], wsOpen := false }

/-- `SendspinSession.maybeNotifyIdentified` from the server session source. -/
def maybeNotifyIdentified (s : SessionState) : SessionState :=
  if s.identified then s
  else if ¬ s.ready ∨ ¬ s.hasOnIdentified then s
  else if s.initialStateRequired ∧ ¬ s.initialStateReceived then s
  else
    { s with
      identifiedNotifications := s.identifiedNotifications + 1
      identified := true }

/-- `SendspinSession.startInitialStateTimeout`. -/
def startInitialStateTimeout (s : SessionState) : SessionState :=
  if "player@v1" ∉ s.roles then s
  else if s.initialStateReceived ∨ s.initialStateTimerArmed then s
  else { s with initialStateTimerArmed := true }

/-- `typeof payload?.client_id === 'string' ? payload.client_id.trim() : ''`
(the `rawClientId` computed by `handleHello`). -/
def helloTrimmedClientId (p : HelloPayload) : String :=
  match p.client_id with
  | some cid => jsTrim cid
  | none => ""

/-- `SendspinSession.handleHello(payload)` from the server session source.
Executed only while `ready = false` (the `handleText` guard).  Each failed
validation closes `1008` with its reason and returns; note that `clientId` /
`clientName` are assigned before the `supported_roles` check and `roles`
before the capability checks, so a rejected hello leaves them populated. -/
def handleHello (s : SessionState) (p : HelloPayload) : SessionState :=
  if p.version ≠ some 1 then closeWs s 1008 "invalid protocol version"
  else
    let rawClientId := helloTrimmedClientId p
    if rawClientId = "" then closeWs s 1008 "missing client_id"
    else
      let s1 := { s with
        clientId := some rawClientId
        clientName := p.name.map jsTrim }
      let supportedRoles := p.supported_roles.getD []
      if supportedRoles = [] then closeWs s1 1008 "missing supported_roles"
      else
        let resolved := resolveActiveRoles supportedRoles
        let s2 := { s1 with roles := resolved.1 }
        if "player@v1" ∈ resolved.1 ∧ ¬ p.playerSupport then
          closeWs s2 1008 "missing player support"
        else if "artwork@v1" ∈ resolved.1 ∧ ¬ p.artworkSupport then
          closeWs s2 1008 "missing artwork support"
        else if "visualizer@v1" ∈ resolved.1 ∧ ¬ p.visualizerSupport then
          closeWs s2 1008 "missing visualizer support"
        else if "source@v1" ∈ resolved.1 ∧ ¬ p.sourceSupport then
          closeWs s2 1008 "missing source support"
        else
          let s3 := { s2 with
            initialStateRequired := "player@v1" ∈ resolved.1
            ready := true }
          maybeNotifyIdentified (startInitialStateTimeout s3)

/-- `SendspinSession.handleClientState`: the first `client/state` clears the
initial-state timer and may complete identification (the player-state /
source-state hook fan-out does not touch the modelled fields). -/
def handleClientState (s : SessionState) : SessionState :=
  if ¬ s.initialStateReceived then
    maybeNotifyIdentified
      { s with initialStateReceived := true, initialStateTimerArmed := false }
  else s

/-- `SendspinSession.handleClientGoodbye`: records the reason (not modelled)
and closes the socket without a code. -/
def handleClientGoodbye (s : SessionState) : SessionState :=
  closeWsPlain s

/-- An inbound text message after JSON parsing, as dispatched by
`SendspinSession.handleText`.  Payload details that no modelled field depends
on are omitted. -/
inductive InboundMessage where
  | hello (p : HelloPayload)
  | clientTime
  | clientState
  | clientCommand
  | clientGoodbye
  | streamRequestFormat
  | other
  deriving Repr

/-- `SendspinSession.handleText` for a string that parsed as JSON (malformed
JSON returns without touching anything).  Before `ready`, anything but
`client/hello` closes `1008 "expected client/hello first"`; afterwards a
repeated hello is ignored and the remaining types are dispatched
(`client/time` and `client/command` only send JSON or invoke hooks, which
touches none of the modelled fields). -/
def handleText (s : SessionState) (m : InboundMessage) : SessionState :=
  if ¬ s.ready then
    match m with
    | .hello p => handleHello s p
    | _ => closeWs s 1008 "expected client/hello first"
  else
    match m with
    | .hello _ => s
    | .clientTime => s
    | .clientState => handleClientState s
    | .clientCommand => s
    | .clientGoodbye => handleClientGoodbye s
    | .streamRequestFormat => s
    | .other => s

/-- `SendspinSession.setHooks`: replaces the hook set (its `onIdentified`
presence is the argument) and re-attempts identification. -/
def setHooks (s : SessionState) (hasOnIdentified : Bool) : SessionState :=
  maybeNotifyIdentified { s with hasOnIdentified := hasOnIdentified, hooksAttached := true }

/-- `SendspinSession.destroy`: clears the initial-state timer and fires
`onDisconnected`. -/
def destroy (s : SessionState) : SessionState :=
  { s with initialStateTimerArmed := false }

/-- The 5-second initial-state timer firing: closes `1008` unless the initial
state arrived first. -/
def initialStateTimerFire (s : SessionState) : SessionState :=
  if s.initialStateTimerArmed ∧ ¬ s.initialStateReceived then
    closeWs { s with initialStateTimerArmed := false } 1008 "initial state timeout"
  else s

/-- `SendspinSession.sendBinary(buf, options)`: no-op on a non-OPEN socket;
with `allowDrop` and the buffered amount above `MAX_BUFFERED` the frame is
dropped and counted; otherwise the frame is written to the transport. -/
def sendBinary (s : SessionState) (buf : List ℕ) (allowDrop : Bool) : SessionState :=
  if ¬ s.wsOpen then s
  else if allowDrop = true ∧ s.wsBufferedAmount > maxBufferedSend then
    { s with
      backpressureDrops := s.backpressureDrops + 1
      lastBackpressureBytes := s.wsBufferedAmount }
  else { s with wsBinarySent := s.wsBinarySent ++ [buf] }

/-- `SendspinSession.ensureStreamStarted`: transmits a `stream/start` (JSON,
untracked) and marks the stream active, unless already active or the socket
is not OPEN. -/
def ensureStreamStarted (s : SessionState) : SessionState :=
  if s.activeStream then s
  else if ¬ s.wsOpen then s
  else { s with activeStream := true }

/-- A PCM frame retry scheduled by `sendPcmAudioFrame` for 5 ms later:
the frame data and its optional explicit timestamp (the `??  serverNowUs()`
fallback is evaluated when the retry runs). -/
structure PcmRetry where
  data : List ℕ
  timestampUs : Option ℤ
  deriving DecidableEq, Repr

/-- `SendspinSession.sendPcmAudioFrame(frame)`: no-op on a non-OPEN socket;
ensures the stream is started; above `MAX_BUFFERED` it only schedules the
5 ms retry (returned as the second component), otherwise it writes
`[header(AUDIO_CHUNK, ts ?? now) || pcm]` immediately.  `nowUs` is the
ambient `serverNowUs()` clock. -/
def sendPcmAudioFrame (s : SessionState) (frameData : List ℕ)
    (frameTimestampUs : Option ℤ) (nowUs : ℤ) : SessionState × Option PcmRetry :=
  if ¬ s.wsOpen then (s, none)
  else
    let s1 := ensureStreamStarted s
    if s1.wsBufferedAmount > maxBufferedSend then
      (s1, some { data := frameData, timestampUs := frameTimestampUs })
    else
      let ts := frameTimestampUs.getD nowUs
      let header := Binary.packBinaryHeaderRaw Binary.AUDIO_CHUNK ts
      (sendBinary s1 (header ++ frameData) false, none)

/-- The body of the 5 ms `setTimeout` callback in `sendPcmAudioFrame`: it
re-checks only `readyState === OPEN` (not the buffered amount) and then hands
the frame to `sendBinary` without `allowDrop`.  `nowUs` is the clock at retry
time. -/
def runPcmRetry (s : SessionState) (retry : PcmRetry) (nowUs : ℤ) : SessionState :=
  if s.wsOpen then
    let ts := retry.timestampUs.getD nowUs
    let header := Binary.packBinaryHeaderRaw Binary.AUDIO_CHUNK ts
    sendBinary s (header ++ retry.data) false
  else s

/-- `SendspinSession.sendArtwork(channel, imageData)`: a bare header for
`null` image data, header plus bytes otherwise, via `sendBinary` with no
options. -/
def sendArtwork (s : SessionState) (channel : ℕ) (imageData : Option (List ℕ))
    (nowUs : ℤ) : SessionState :=
  if ¬ s.ready then s
  else
    let header := Binary.packBinaryHeaderRaw (Binary.ARTWORK_CHANNEL_0 + channel) nowUs
    let payload := match imageData with
      | some bytes => header ++ bytes
      | none => header
    sendBinary s payload false

/-- `SendspinSession.sendVisualizerFrame(data, timestampUs?)` via `sendBinary`
with no options. -/
def sendVisualizerFrame (s : SessionState) (data : List ℕ)
    (timestampUs : Option ℤ) (nowUs : ℤ) : SessionState :=
  if ¬ s.ready then s
  else if "visualizer@v1" ∉ s.roles then s
  else
    let ts := timestampUs.getD nowUs
    let header := Binary.packBinaryHeaderRaw Binary.VISUALIZATION_DATA ts
    sendBinary s (header ++ data) false

/-- A session-facing operation: what the registry, the timers or the server
code can do to one session.  `transportSet` lets the environment change the
socket's observable state between operations. -/
inductive SessionOp where
  | text (m : InboundMessage)
  | hooks (hasOnIdentified : Bool)
  | destroySession
  | timerFire
  | pcm (frameData : List ℕ) (frameTimestampUs : Option ℤ) (nowUs : ℤ)
  | pcmRetry (retry : PcmRetry) (nowUs : ℤ)
  | artwork (channel : ℕ) (imageData : Option (List ℕ)) (nowUs : ℤ)
  | visualizer (data : List ℕ) (timestampUs : Option ℤ) (nowUs : ℤ)
  | transportSet (isOpen : Bool) (buffered : ℕ)
  deriving Repr

/-- One step of the session state machine. -/
def applyOp (s : SessionState) (op : SessionOp) : SessionState :=
  match op with
  | .text m => handleText s m
  | .hooks h => setHooks s h
  | .destroySession => destroy s
  | .timerFire => initialStateTimerFire s
  | .pcm frameData frameTimestampUs nowUs =>
      (sendPcmAudioFrame s frameData frameTimestampUs nowUs).1
  | .pcmRetry retry nowUs => runPcmRetry s retry nowUs
  | .artwork channel imageData nowUs => sendArtwork s channel imageData nowUs
  | .visualizer data timestampUs nowUs => sendVisualizerFrame s data timestampUs nowUs
  | .transportSet isOpen buffered =>
      { s with wsOpen := isOpen, wsBufferedAmount := buffered }

/-- The identification invariant: `identified` implies the handshake
completed, `identified` implies the initial-state gate was satisfied, and the
`onIdentified` notification count is `1` when identified and `0` otherwise. -/
def IdentInvariant (s : SessionState) : Prop :=
  (s.identified = true → s.ready = true) ∧
  (s.identified = true → (s.initialStateRequired = false ∨ s.initialStateReceived = true)) ∧
  s.identifiedNotifications = (if s.identified = true then 1 else 0)

end Session

namespace Core

/-- The registry (`SendspinCore` from the server core source) restricted to
its session table; map iteration order is insertion order. -/
structure SendspinCore where
  sessions : List Session.SessionState

/-- `SendspinCore.getSession(clientId)`: scan all sessions, preferring the
first `playback`-reason match, falling back to the first other match. -/
def getSession (core : SendspinCore) (clientId : String) : Option Session.SessionState :=
  let scan := core.sessions.foldl
    (fun (acc : Option Session.SessionState × Option Session.SessionState) sess =>
      if sess.clientId = some clientId then
        if sess.connectionReason = ConnectionReason.playback ∧ acc.1.isNone then
          (some sess, acc.2)
        else if acc.2.isNone then (acc.1, some sess)
        else acc
      else acc)
    (none, none)
  scan.1 <|> scan.2

end Core

/-! ### Concrete scenario states -/

/-- The spec's Kalman bootstrap trace, first call:
`update(100, 10, 0)` on a fresh filter. -/
def kalmanTrace1 : TimeFilter.SendspinTimeFilter :=
  TimeFilter.update TimeFilter.mkSendspinTimeFilter 100 10 0

/-- Second call: `update(120, 10, 1_000_000)`. -/
def kalmanTrace2 : TimeFilter.SendspinTimeFilter :=
  TimeFilter.update kalmanTrace1 120 10 1000000

/-- Third call: `update(140, 10, 2_000_000)`. -/
def kalmanTrace3 : TimeFilter.SendspinTimeFilter :=
  TimeFilter.update kalmanTrace2 140 10 2000000

/-- Fourth call: `update(160, 10, 3_000_000)`. -/
def kalmanTrace4 : TimeFilter.SendspinTimeFilter :=
  TimeFilter.update kalmanTrace3 160 10 3000000

/-- The spec's time-projection snapshot:
`offset = 1_000_000`, `drift = 0`, `last_update = 5_000_000`. -/
def projectionSnapshot : TimeFilter.SendspinTimeFilter :=
  { TimeFilter.mkSendspinTimeFilter with
    current := { lastUpdate := 5000000, offset := 1000000, drift := 0 } }

/-- A ready session whose transport reports 600 KiB of buffered data
(above the 512 KiB `MAX_BUFFERED` guard) with an already-active stream. -/
def backloggedSession : Session.SessionState :=
  { Session.initialSession ConnectionReason.discovery false (600 * 1024) with
    ready := true
    activeStream := true }

/-- A hello that passes the version and client-id checks (client id needing a
trim) but carries an empty `supported_roles` array. -/
def rejectedHelloRoles : Session.HelloPayload :=
  { version := some 1
    client_id := some " c1 "
    name := none
    supported_roles := some []
    playerSupport := false
    artworkSupport := false
    visualizerSupport := false
    sourceSupport := false }

/-- A hello that admits the player role but carries no player capability
block. -/
def rejectedHelloCapability : Session.HelloPayload :=
  { version := some 1
    client_id := some "c1"
    name := none
    supported_roles := some [Session.RoleEntry.str "player@v1"]
    playerSupport := false
    artworkSupport := false
    visualizerSupport := false
    sourceSupport := false }

/-- The session left behind by the roles-check rejection. -/
def rejectedSessionRoles : Session.SessionState :=
  Session.handleHello (Session.initialSession ConnectionReason.discovery false 0)
    rejectedHelloRoles

/-- The session left behind by the capability-check rejection. -/
def rejectedSessionCapability : Session.SessionState :=
  Session.handleHello (Session.initialSession ConnectionReason.discovery false 0)
    rejectedHelloCapability

end Sendspin

namespace Sendspin

open TimeFilter Binary

/-! ### Kalman bootstrap trace (claim C1) -/

theorem kalmanTrace1_eq : kalmanTrace1 = mkSendspinTimeFilter := by
  unfold kalmanTrace1 mkSendspinTimeFilter
  norm_num [update]

theorem kalmanTrace2_eq : kalmanTrace2 =
    { lastUpdate := 1000000
      count := 1
      offset := 120
      drift := 0
      offsetCovarianceInf := false
      offsetCovariance := 100
      offsetDriftCovariance := 0
      driftCovariance := 0
      processVariance := (1/100) * (1/100)
      forgetVarianceFactor := (1001/1000) * (1001/1000)
      current := { lastUpdate := 1000000, offset := 120, drift := 0 } } := by
  unfold kalmanTrace2
  rw [kalmanTrace1_eq]
  unfold mkSendspinTimeFilter
  norm_num [update]

theorem kalmanTrace3_eq : kalmanTrace3 =
    { lastUpdate := 2000000
      count := 2
      offset := 140
      drift := 1/50000
      offsetCovarianceInf := false
      offsetCovariance := 100
      offsetDriftCovariance := 0
      driftCovariance := 1/5000
      processVariance := (1/100) * (1/100)
      forgetVarianceFactor := (1001/1000) * (1001/1000)
      current := { lastUpdate := 2000000, offset := 140, drift := 1/50000 } } := by
  unfold kalmanTrace3
  rw [kalmanTrace2_eq]
  norm_num [update]

/-- Claim C1, counterexample.  The claimed scenario asserts that after
`update(100, 10, 0)` and `update(120, 10, 1_000_000)` on a fresh filter,
`is_synchronized` is `true` and `drift ≈ 20e-6`.  In fact the very first call
is deduplicated (`timeAdded === lastUpdate` holds because the constructor
initialises `lastUpdate = 0`), so after the second call the filter has only
completed its first bootstrap step: `count = 1`, `is_synchronized = false`
and `drift = 0`. -/
theorem C1_counterexample :
    isSynchronized kalmanTrace2 = false ∧
    kalmanTrace2.count = 1 ∧
    kalmanTrace2.drift = 0 := by
  rw [kalmanTrace2_eq]
  norm_num [isSynchronized]

/-- Claim C1, amended.  On a fresh `SendspinTimeFilter`, `update(100, 10, 0)`
is a no-op (deduplicated against the initial `last_update = 0`); after
`update(120, 10, 1_000_000)` the filter is *not* yet synchronized and
`offset = 120`; after the further call `update(140, 10, 2_000_000)`
`is_synchronized` is true, `drift = 20e-6` and `offset = 140`; and after
`update(160, 10, 3_000_000)` the one-sigma `error` is finite. -/
theorem C1_kalman_bootstrap :
    kalmanTrace1 = mkSendspinTimeFilter ∧
    isSynchronized kalmanTrace2 = false ∧
    kalmanTrace2.offset = 120 ∧
    isSynchronized kalmanTrace3 = true ∧
    kalmanTrace3.drift = 20 / 1000000 ∧
    kalmanTrace3.offset = 140 ∧
    errorFinite kalmanTrace4 = true := by
  refine ⟨kalmanTrace1_eq, ?_, ?_, ?_, ?_, ?_, ?_⟩
  · rw [kalmanTrace2_eq]; norm_num [isSynchronized]
  · rw [kalmanTrace2_eq]
  · rw [kalmanTrace3_eq]; norm_num [isSynchronized]
  · rw [kalmanTrace3_eq]; norm_num
  · rw [kalmanTrace3_eq]
  · unfold kalmanTrace4
    rw [kalmanTrace3_eq]
    norm_num [update, errorFinite, ADAPTIVE_FORGETTING_CUTOFF]

/-! ### Time projection (claim C3) -/

/-- Claim C3.  For any filter snapshot with `drift = 0` and any integer
client time `c`, the projection round trip
`computeClientTime (computeServerTime c)` lands within ±1 µs of `c`; and on
the spec's concrete snapshot (`offset = 1_000_000`, `drift = 0`,
`last_update = 5_000_000`), `computeServerTime 10_000_000 = 11_000_000` and
`computeClientTime 11_000_000 = 10_000_000`. -/
theorem C3_time_projection_round_trip :
    (∀ (f : SendspinTimeFilter) (c : ℤ), f.current.drift = 0 →
      |computeClientTime f (computeServerTime f (c : ℚ)) - c| ≤ 1) ∧
    computeServerTime projectionSnapshot 10000000 = 11000000 ∧
    computeClientTime projectionSnapshot 11000000 = 10000000 := by
  refine ⟨?_, ?_, ?_⟩
  · intro f c h
    have hs : computeServerTime f (c : ℚ) =
        (c : ℚ) + ((⌊f.current.offset + 1/2⌋ : ℤ) : ℚ) := by
      simp [computeServerTime, computeServerTimeOffset, jsRound, h]
    rw [hs]
    have harg : ((c : ℚ) + ((⌊f.current.offset + 1/2⌋ : ℤ) : ℚ) - f.current.offset +
        f.current.drift * f.current.lastUpdate) / (1 + f.current.drift) + 1/2 =
        ((c + ⌊f.current.offset + 1/2⌋ : ℤ) : ℚ) + (1/2 - f.current.offset) := by
      rw [h]
      push_cast
      ring
    have hc : computeClientTime f ((c : ℚ) + ((⌊f.current.offset + 1/2⌋ : ℤ) : ℚ)) =
        c + ⌊f.current.offset + 1/2⌋ + ⌊(1/2 : ℚ) - f.current.offset⌋ := by
      rw [computeClientTime, jsRound, harg, Int.floor_int_add]
    rw [hc]
    set o := f.current.offset
    set a := ⌊o + 1/2⌋ with ha
    set b := ⌊(1/2 : ℚ) - o⌋ with hb
    have h1 : (a : ℚ) ≤ o + 1/2 := Int.floor_le _
    have h2 : (b : ℚ) ≤ 1/2 - o := Int.floor_le _
    have h3 : o + 1/2 < (a : ℚ) + 1 := Int.lt_floor_add_one _
    have h4 : (1/2 : ℚ) - o < (b : ℚ) + 1 := Int.lt_floor_add_one _
    have hub : (a : ℚ) + b ≤ 1 := by linarith
    have hlb : (-1 : ℚ) < (a : ℚ) + b := by linarith
    have hub2 : a + b ≤ 1 := by exact_mod_cast hub
    have hlb2 : (-1 : ℤ) < a + b := by exact_mod_cast hlb
    rw [abs_le]
    constructor <;> omega
  · have hfloor : ⌊(1000000 : ℚ) + 0 * (10000000 - 5000000) + 1/2⌋ = 1000000 := by
      rw [Int.floor_eq_iff]; norm_num
    simp only [computeServerTime, computeServerTimeOffset, jsRound, projectionSnapshot,
      mkSendspinTimeFilter]
    rw [hfloor]
    norm_num
  · have hfloor : ⌊((11000000 : ℚ) - 1000000 + 0 * 5000000) / (1 + 0) + 1/2⌋ =
        10000000 := by
      rw [Int.floor_eq_iff]; norm_num
    simp only [computeClientTime, jsRound, projectionSnapshot, mkSendspinTimeFilter]
    rw [hfloor]

/-- Claim C3, witness: the general round-trip bound instantiated at the
concrete snapshot (whose snapshot drift is `0`) and `c = 10_000_000`. -/
theorem C3_time_projection_round_trip_witness :
    |computeClientTime projectionSnapshot
        (computeServerTime projectionSnapshot ((10000000 : ℤ) : ℚ)) - 10000000| ≤ 1 :=
  C3_time_projection_round_trip.1 projectionSnapshot 10000000 rfl

/-! ### Binary header round trip (claim C4) -/

/-- Claim C4.  For every message type in `0..255` and timestamp in
`[-2^63, 2^63)`, unpacking the packed header returns exactly the inputs, the
packed buffer is 9 bytes, byte 0 is the type and bytes 1..9 are the
big-endian signed 64-bit timestamp. -/
theorem C4_binary_header_round_trip (type : ℕ) (ts : ℤ)
    (htype : type < 256) (hlo : -(2 ^ 63) ≤ ts) (hhi : ts < 2 ^ 63) :
    unpackBinaryHeader (packBinaryHeader ⟨type, ts⟩) = some ⟨type, ts⟩ ∧
    (packBinaryHeader ⟨type, ts⟩).length = 9 ∧
    packBinaryHeader ⟨type, ts⟩ = type :: writeBigInt64BE ts := by
  refine ⟨unpackBinaryHeader_packBinaryHeader type ts htype hlo hhi, rfl, ?_⟩
  simp [packBinaryHeader, Nat.mod_eq_of_lt htype]

/-- Claim C4, witness: the round trip at `type = 12`,
`ts = -5_000_000`. -/
theorem C4_binary_header_round_trip_witness :
    unpackBinaryHeader (packBinaryHeader ⟨12, -5000000⟩) = some ⟨12, -5000000⟩ ∧
    (packBinaryHeader ⟨12, (-5000000 : ℤ)⟩).length = 9 ∧
    packBinaryHeader ⟨12, (-5000000 : ℤ)⟩ = 12 :: writeBigInt64BE (-5000000) :=
  C4_binary_header_round_trip 12 (-5000000) (by norm_num) (by norm_num) (by norm_num)

/-! ### Source-audio upload (claim C8) -/

theorem computeSourceTimestamp_is_filter_projection (c : Client.SendspinClient)
    (captureTimestampUs : ℤ) :
    ((Client.computeSourceTimestamp c captureTimestampUs : ℤ) : ℚ) =
      TimeFilter.computeServerTime c.timeFilter (captureTimestampUs : ℚ) := by
  simp [Client.computeSourceTimestamp, TimeFilter.computeServerTime]

/-- Claim C8.  For a connected client, `sendSourceAudioChunk` with an explicit
server timestamp emits exactly `header(SOURCE_AUDIO_CHUNK = 12, ts) ++ data`;
without one it fails with the missing-timestamp error when no capture
timestamp is given either, fails with the not-synchronized error when the time
filter is not synchronized, and otherwise emits the frame stamped with the raw
filter projection of the capture timestamp (`computeSourceTimestamp`, which
applies no static-delay adjustment); concretely, a fresh never-synchronized
client fails on `captureTimestampUs = 1_000_000` but succeeds on
`serverTimestampUs = 1_000_000`, producing wire bytes starting
`[12, BE_i64(1_000_000)]`. -/
theorem C8_source_audio_upload :
    Binary.SOURCE_AUDIO_CHUNK = 12 ∧
    (∀ (c : Client.SendspinClient) (data : List ℕ) (cap : Option ℤ) (ts : ℤ),
      c.connected = true →
      Client.sendSourceAudioChunk c data cap (some ts) =
        .ok (packBinaryHeaderRaw 12 ts ++ data)) ∧
    (∀ (c : Client.SendspinClient) (data : List ℕ),
      c.connected = true →
      Client.sendSourceAudioChunk c data none none = .error .missingTimestamp) ∧
    (∀ (c : Client.SendspinClient) (data : List ℕ) (cap : ℤ),
      c.connected = true → isSynchronized c.timeFilter = false →
      Client.sendSourceAudioChunk c data (some cap) none = .error .notSynchronized) ∧
    (∀ (c : Client.SendspinClient) (data : List ℕ) (cap : ℤ),
      c.connected = true → isSynchronized c.timeFilter = true →
      Client.sendSourceAudioChunk c data (some cap) none =
        .ok (packBinaryHeaderRaw 12 (Client.computeSourceTimestamp c cap) ++ data)) ∧
    Client.sendSourceAudioChunk Client.freshClient [1, 2] (some 1000000) none =
      .error .notSynchronized ∧
    Client.sendSourceAudioChunk Client.freshClient [1, 2] none (some 1000000) =
      .ok [12, 0, 0, 0, 0, 0, 15, 66, 64, 1, 2] := by
  refine ⟨rfl, ?_, ?_, ?_, ?_, ?_, ?_⟩
  · intro c data cap ts hc
    simp [Client.sendSourceAudioChunk, hc, Binary.SOURCE_AUDIO_CHUNK]
  · intro c data hc
    simp [Client.sendSourceAudioChunk, hc]
  · intro c data cap hc hsync
    simp [Client.sendSourceAudioChunk, hc, hsync]
  · intro c data cap hc hsync
    simp [Client.sendSourceAudioChunk, hc, hsync, Binary.SOURCE_AUDIO_CHUNK]
  · have hsync : isSynchronized Client.freshClient.timeFilter = false := by
      norm_num [Client.freshClient, isSynchronized, mkSendspinTimeFilter]
    simp [Client.sendSourceAudioChunk, Client.freshClient, hsync, isSynchronized,
      mkSendspinTimeFilter]
  · have hpack : packBinaryHeaderRaw 12 1000000 = [12, 0, 0, 0, 0, 0, 15, 66, 64] := by
      norm_num [packBinaryHeaderRaw, packBinaryHeader, writeBigInt64BE]
      omega
    simp [Client.sendSourceAudioChunk, Client.freshClient, Binary.SOURCE_AUDIO_CHUNK, hpack]

/-- Claim C8, witness: the explicit-server-timestamp case applied to the
fresh client at `ts = 42`. -/
theorem C8_source_audio_upload_witness :
    Client.sendSourceAudioChunk Client.freshClient [7] none (some 42) =
      .ok (packBinaryHeaderRaw 12 42 ++ [7]) :=
  C8_source_audio_upload.2.1 Client.freshClient [7] none 42 rfl

/-! ### Hello validation (claim C5) -/

theorem maybeNotifyIdentified_wsCloseCalls (s : Session.SessionState) :
    (Session.maybeNotifyIdentified s).wsCloseCalls = s.wsCloseCalls := by
  unfold Session.maybeNotifyIdentified
  split_ifs <;> rfl

theorem maybeNotifyIdentified_ready (s : Session.SessionState) :
    (Session.maybeNotifyIdentified s).ready = s.ready := by
  unfold Session.maybeNotifyIdentified
  split_ifs <;> rfl

theorem startInitialStateTimeout_wsCloseCalls (s : Session.SessionState) :
    (Session.startInitialStateTimeout s).wsCloseCalls = s.wsCloseCalls := by
  unfold Session.startInitialStateTimeout
  split_ifs <;> rfl

theorem startInitialStateTimeout_ready (s : Session.SessionState) :
    (Session.startInitialStateTimeout s).ready = s.ready := by
  unfold Session.startInitialStateTimeout
  split_ifs <;> rfl

theorem handleHello_badVersion (s : Session.SessionState) (p : Session.HelloPayload)
    (h1 : p.version ≠ some 1) :
    Session.handleHello s p = Session.closeWs s 1008 "invalid protocol version" := by
  simp only [Session.handleHello]
  rw [if_pos h1]

theorem handleHello_badClientId (s : Session.SessionState) (p : Session.HelloPayload)
    (h1 : p.version = some 1) (h2 : Session.helloTrimmedClientId p = "") :
    Session.handleHello s p = Session.closeWs s 1008 "missing client_id" := by
  simp only [Session.handleHello]
  rw [if_neg (by simp [h1]), if_pos h2]

theorem handleHello_badRoles (s : Session.SessionState) (p : Session.HelloPayload)
    (h1 : p.version = some 1) (h2 : ¬ Session.helloTrimmedClientId p = "")
    (h3 : p.supported_roles.getD [] = []) :
    Session.handleHello s p =
      Session.closeWs
        { s with clientId := some (Session.helloTrimmedClientId p),
                 clientName := p.name.map Session.jsTrim }
        1008 "missing supported_roles" := by
  simp only [Session.handleHello]
  rw [if_neg (by simp [h1]), if_neg h2, if_pos h3]

theorem handleHello_missingPlayer (s : Session.SessionState) (p : Session.HelloPayload)
    (h1 : p.version = some 1) (h2 : ¬ Session.helloTrimmedClientId p = "")
    (h3 : ¬ p.supported_roles.getD [] = [])
    (h4 : "player@v1" ∈ (Session.resolveActiveRoles (p.supported_roles.getD [])).1 ∧
      ¬ p.playerSupport = true) :
    Session.handleHello s p =
      Session.closeWs
        { s with clientId := some (Session.helloTrimmedClientId p),
                 clientName := p.name.map Session.jsTrim,
                 roles := (Session.resolveActiveRoles (p.supported_roles.getD [])).1 }
        1008 "missing player support" := by
  simp only [Session.handleHello]
  rw [if_neg (by simp [h1]), if_neg h2, if_neg h3, if_pos h4]

theorem handleHello_missingArtwork (s : Session.SessionState) (p : Session.HelloPayload)
    (h1 : p.version = some 1) (h2 : ¬ Session.helloTrimmedClientId p = "")
    (h3 : ¬ p.supported_roles.getD [] = [])
    (h4 : ¬("player@v1" ∈ (Session.resolveActiveRoles (p.supported_roles.getD [])).1 ∧
      ¬ p.playerSupport = true))
    (h5 : "artwork@v1" ∈ (Session.resolveActiveRoles (p.supported_roles.getD [])).1 ∧
      ¬ p.artworkSupport = true) :
    Session.handleHello s p =
      Session.closeWs
        { s with clientId := some (Session.helloTrimmedClientId p),
                 clientName := p.name.map Session.jsTrim,
                 roles := (Session.resolveActiveRoles (p.supported_roles.getD [])).1 }
        1008 "missing artwork support" := by
  simp only [Session.handleHello]
  rw [if_neg (by simp [h1]), if_neg h2, if_neg h3, if_neg h4, if_pos h5]

theorem handleHello_missingVisualizer (s : Session.SessionState) (p : Session.HelloPayload)
    (h1 : p.version = some 1) (h2 : ¬ Session.helloTrimmedClientId p = "")
    (h3 : ¬ p.supported_roles.getD [] = [])
    (h4 : ¬("player@v1" ∈ (Session.resolveActiveRoles (p.supported_roles.getD [])).1 ∧
      ¬ p.playerSupport = true))
    (h5 : ¬("artwork@v1" ∈ (Session.resolveActiveRoles (p.supported_roles.getD [])).1 ∧
      ¬ p.artworkSupport = true))
    (h6 : "visualizer@v1" ∈ (Session.resolveActiveRoles (p.supported_roles.getD [])).1 ∧
      ¬ p.visualizerSupport = true) :
    Session.handleHello s p =
      Session.closeWs
        { s with clientId := some (Session.helloTrimmedClientId p),
                 clientName := p.name.map Session.jsTrim,
                 roles := (Session.resolveActiveRoles (p.supported_roles.getD [])).1 }
        1008 "missing visualizer support" := by
  simp only [Session.handleHello]
  rw [if_neg (by simp [h1]), if_neg h2, if_neg h3, if_neg h4, if_neg h5, if_pos h6]

theorem handleHello_missingSource (s : Session.SessionState) (p : Session.HelloPayload)
    (h1 : p.version = some 1) (h2 : ¬ Session.helloTrimmedClientId p = "")
    (h3 : ¬ p.supported_roles.getD [] = [])
    (h4 : ¬("player@v1" ∈ (Session.resolveActiveRoles (p.supported_roles.getD [])).1 ∧
      ¬ p.playerSupport = true))
    (h5 : ¬("artwork@v1" ∈ (Session.resolveActiveRoles (p.supported_roles.getD [])).1 ∧
      ¬ p.artworkSupport = true))
    (h6 : ¬("visualizer@v1" ∈ (Session.resolveActiveRoles (p.supported_roles.getD [])).1 ∧
      ¬ p.visualizerSupport = true))
    (h7 : "source@v1" ∈ (Session.resolveActiveRoles (p.supported_roles.getD [])).1 ∧
      ¬ p.sourceSupport = true) :
    Session.handleHello s p =
      Session.closeWs
        { s with clientId := some (Session.helloTrimmedClientId p),
                 clientName := p.name.map Session.jsTrim,
                 roles := (Session.resolveActiveRoles (p.supported_roles.getD [])).1 }
        1008 "missing source support" := by
  simp only [Session.handleHello]
  rw [if_neg (by simp [h1]), if_neg h2, if_neg h3, if_neg h4, if_neg h5, if_neg h6,
    if_pos h7]

theorem handleHello_accepted (s : Session.SessionState) (p : Session.HelloPayload)
    (h1 : p.version = some 1) (h2 : ¬ Session.helloTrimmedClientId p = "")
    (h3 : ¬ p.supported_roles.getD [] = [])
    (h4 : ¬("player@v1" ∈ (Session.resolveActiveRoles (p.supported_roles.getD [])).1 ∧
      ¬ p.playerSupport = true))
    (h5 : ¬("artwork@v1" ∈ (Session.resolveActiveRoles (p.supported_roles.getD [])).1 ∧
      ¬ p.artworkSupport = true))
    (h6 : ¬("visualizer@v1" ∈ (Session.resolveActiveRoles (p.supported_roles.getD [])).1 ∧
      ¬ p.visualizerSupport = true))
    (h7 : ¬("source@v1" ∈ (Session.resolveActiveRoles (p.supported_roles.getD [])).1 ∧
      ¬ p.sourceSupport = true)) :
    Session.handleHello s p =
      Session.maybeNotifyIdentified (Session.startInitialStateTimeout
        { s with clientId := some (Session.helloTrimmedClientId p),
                 clientName := p.name.map Session.jsTrim,
                 roles := (Session.resolveActiveRoles (p.supported_roles.getD [])).1,
                 initialStateRequired :=
                   "player@v1" ∈ (Session.resolveActiveRoles (p.supported_roles.getD [])).1,
                 ready := true }) := by
  simp only [Session.handleHello]
  rw [if_neg (by simp [h1]), if_neg h2, if_neg h3, if_neg h4, if_neg h5, if_neg h6,
    if_neg h7]

/-- Claim C5.  For a session in the await-hello state (fresh transport, no
close issued yet), processing a `client/hello` payload closes
`1008 "invalid protocol version"` iff `version ≠ 1`; otherwise closes
`1008 "missing client_id"` iff the trimmed `client_id` is empty; otherwise
closes `1008 "missing supported_roles"` iff `supported_roles` is empty;
otherwise closes with the family-specific missing-support reason iff the
corresponding admitted role family lacks its capability block, checked in the
order player, artwork, visualizer, source; and whenever any close was issued
the session is not `ready` (while an accepted hello makes it `ready`). -/
theorem C5_hello_validation (s : Session.SessionState) (p : Session.HelloPayload)
    (hready : s.ready = false) (hclosed : s.wsCloseCalls = []) :
    ((Session.handleHello s p).wsCloseCalls =
        [some (1008, "invalid protocol version")] ↔ p.version ≠ some 1) ∧
    (p.version = some 1 →
      ((Session.handleHello s p).wsCloseCalls = [some (1008, "missing client_id")] ↔
        Session.helloTrimmedClientId p = "")) ∧
    (p.version = some 1 → Session.helloTrimmedClientId p ≠ "" →
      ((Session.handleHello s p).wsCloseCalls =
          [some (1008, "missing supported_roles")] ↔
        p.supported_roles.getD [] = [])) ∧
    (p.version = some 1 → Session.helloTrimmedClientId p ≠ "" →
      p.supported_roles.getD [] ≠ [] →
      (((Session.handleHello s p).wsCloseCalls =
          [some (1008, "missing player support")] ↔
        ("player@v1" ∈ (Session.resolveActiveRoles (p.supported_roles.getD [])).1 ∧
          p.playerSupport = false)) ∧
       ((Session.handleHello s p).wsCloseCalls =
          [some (1008, "missing artwork support")] ↔
        (("artwork@v1" ∈ (Session.resolveActiveRoles (p.supported_roles.getD [])).1 ∧
          p.artworkSupport = false) ∧
         ¬("player@v1" ∈ (Session.resolveActiveRoles (p.supported_roles.getD [])).1 ∧
          p.playerSupport = false))) ∧
       ((Session.handleHello s p).wsCloseCalls =
          [some (1008, "missing visualizer support")] ↔
        (("visualizer@v1" ∈ (Session.resolveActiveRoles (p.supported_roles.getD [])).1 ∧
          p.visualizerSupport = false) ∧
         ¬("player@v1" ∈ (Session.resolveActiveRoles (p.supported_roles.getD [])).1 ∧
          p.playerSupport = false) ∧
         ¬("artwork@v1" ∈ (Session.resolveActiveRoles (p.supported_roles.getD [])).1 ∧
          p.artworkSupport = false))) ∧
       ((Session.handleHello s p).wsCloseCalls =
          [some (1008, "missing source support")] ↔
        (("source@v1" ∈ (Session.resolveActiveRoles (p.supported_roles.getD [])).1 ∧
          p.sourceSupport = false) ∧
         ¬("player@v1" ∈ (Session.resolveActiveRoles (p.supported_roles.getD [])).1 ∧
          p.playerSupport = false) ∧
         ¬("artwork@v1" ∈ (Session.resolveActiveRoles (p.supported_roles.getD [])).1 ∧
          p.artworkSupport = false) ∧
         ¬("visualizer@v1" ∈ (Session.resolveActiveRoles (p.supported_roles.getD [])).1 ∧
          p.visualizerSupport = false))))) ∧
    ((Session.handleHello s p).wsCloseCalls ≠ [] →
      (Session.handleHello s p).ready = false) ∧
    ((Session.handleHello s p).wsCloseCalls = [] →
      (Session.handleHello s p).ready = true) := by
  by_cases hv : p.version = some 1
  case neg =>
    rw [handleHello_badVersion s p hv]
    simp [Session.closeWs, hclosed, hready, hv]
  case pos =>
  by_cases hid : Session.helloTrimmedClientId p = ""
  case pos =>
    rw [handleHello_badClientId s p hv hid]
    simp [Session.closeWs, hclosed, hready, hv, hid]
  case neg =>
  by_cases hroles : p.supported_roles.getD [] = []
  case pos =>
    rw [handleHello_badRoles s p hv hid hroles]
    simp [Session.closeWs, hclosed, hready, hv, hid, hroles]
  case neg =>
  by_cases h4 : "player@v1" ∈ (Session.resolveActiveRoles (p.supported_roles.getD [])).1 ∧
      ¬ p.playerSupport = true
  case pos =>
    rw [handleHello_missingPlayer s p hv hid hroles h4]
    simp_all [Session.closeWs]
  case neg =>
  by_cases h5 : "artwork@v1" ∈ (Session.resolveActiveRoles (p.supported_roles.getD [])).1 ∧
      ¬ p.artworkSupport = true
  case pos =>
    rw [handleHello_missingArtwork s p hv hid hroles h4 h5]
    simp_all [Session.closeWs]
  case neg =>
  by_cases h6 : "visualizer@v1" ∈ (Session.resolveActiveRoles (p.supported_roles.getD [])).1 ∧
      ¬ p.visualizerSupport = true
  case pos =>
    rw [handleHello_missingVisualizer s p hv hid hroles h4 h5 h6]
    simp_all [Session.closeWs]
  case neg =>
  by_cases h7 : "source@v1" ∈ (Session.resolveActiveRoles (p.supported_roles.getD [])).1 ∧
      ¬ p.sourceSupport = true
  case pos =>
    rw [handleHello_missingSource s p hv hid hroles h4 h5 h6 h7]
    simp_all [Session.closeWs]
  case neg =>
    rw [handleHello_accepted s p hv hid hroles h4 h5 h6 h7]
    simp only [maybeNotifyIdentified_wsCloseCalls, startInitialStateTimeout_wsCloseCalls,
      maybeNotifyIdentified_ready, startInitialStateTimeout_ready]
    simp_all

/-- Claim C5, witness: a hello with `version = 2` is rejected as an invalid
protocol version (first conjunct of the cascade, instantiated at a fresh
discovery session). -/
theorem C5_hello_validation_witness :
    (Session.handleHello (Session.initialSession ConnectionReason.discovery false 0)
        { version := some 2, client_id := some "c1", name := none,
          supported_roles := some [Session.RoleEntry.str "player@v1"],
          playerSupport := true, artworkSupport := false,
          visualizerSupport := false, sourceSupport := false }).wsCloseCalls =
      [some (1008, "invalid protocol version")] :=
  (C5_hello_validation (Session.initialSession ConnectionReason.discovery false 0)
    { version := some 2, client_id := some "c1", name := none,
      supported_roles := some [Session.RoleEntry.str "player@v1"],
      playerSupport := true, artworkSupport := false,
      visualizerSupport := false, sourceSupport := false } rfl rfl).1.mpr
    (by simp)

/-! ### Role resolution (claim C6) -/

theorem resolveActiveRolesGo_unsupported (entries : List Session.RoleEntry) :
    ∀ seen, (Session.resolveActiveRolesGo entries seen).2 =
      Session.unknownStringEntries entries := by
  induction entries with
  | nil => intro seen; rfl
  | cons e rest ih =>
      intro seen
      cases e with
      | nonString =>
          simp [Session.resolveActiveRolesGo, Session.unknownStringEntries, ih]
      | str role =>
          by_cases hsup : role ∈ Session.serverSupportedRoles
          · by_cases hseen : Session.roleFamily role ∈ seen
            · simp [Session.resolveActiveRolesGo, Session.unknownStringEntries,
                hsup, hseen, ih]
            · simp [Session.resolveActiveRolesGo, Session.unknownStringEntries,
                hsup, hseen, ih]
          · by_cases hund : Session.startsWithUnderscore role = true
            · simp [Session.resolveActiveRolesGo, Session.unknownStringEntries,
                hsup, hund, ih]
            · simp [Session.resolveActiveRolesGo, Session.unknownStringEntries,
                hsup, hund, ih]

theorem resolveActiveRolesGo_active (entries : List Session.RoleEntry) :
    ∀ seen, (Session.resolveActiveRolesGo entries seen).1 =
      Session.dedupByFamilyGo (Session.supportedStringEntries entries) seen := by
  induction entries with
  | nil => intro seen; rfl
  | cons e rest ih =>
      intro seen
      cases e with
      | nonString =>
          simp [Session.resolveActiveRolesGo, Session.supportedStringEntries, ih]
      | str role =>
          by_cases hsup : role ∈ Session.serverSupportedRoles
          · by_cases hseen : Session.roleFamily role ∈ seen
            · simp [Session.resolveActiveRolesGo, Session.supportedStringEntries,
                Session.dedupByFamilyGo, hsup, hseen, ih]
            · simp [Session.resolveActiveRolesGo, Session.supportedStringEntries,
                Session.dedupByFamilyGo, hsup, hseen, ih]
          · by_cases hund : Session.startsWithUnderscore role = true
            · simp [Session.resolveActiveRolesGo, Session.supportedStringEntries,
                hsup, hund, ih]
            · simp [Session.resolveActiveRolesGo, Session.supportedStringEntries,
                hsup, hund, ih]

theorem resolveActiveRolesGo_active_inv (entries : List Session.RoleEntry) :
    ∀ seen,
      (∀ r ∈ (Session.resolveActiveRolesGo entries seen).1,
        r ∈ Session.serverSupportedRoles ∧ Session.roleFamily r ∉ seen) ∧
      ((Session.resolveActiveRolesGo entries seen).1).Pairwise
        (fun a b => Session.roleFamily a ≠ Session.roleFamily b) := by
  induction entries with
  | nil => intro seen; simp [Session.resolveActiveRolesGo]
  | cons e rest ih =>
      intro seen
      cases e with
      | nonString => exact ih seen
      | str role =>
          by_cases hsup : role ∈ Session.serverSupportedRoles
          · by_cases hseen : Session.roleFamily role ∈ seen
            · simpa [Session.resolveActiveRolesGo, hsup, hseen] using ih seen
            · have ihx := ih (Session.roleFamily role :: seen)
              constructor
              · intro r hr
                simp only [Session.resolveActiveRolesGo, if_pos hsup, if_neg hseen,
                  List.mem_cons] at hr
                rcases hr with rfl | hr
                · exact ⟨hsup, hseen⟩
                · have := ihx.1 r hr
                  exact ⟨this.1, fun hmem => this.2 (List.mem_cons_of_mem _ hmem)⟩
              · simp only [Session.resolveActiveRolesGo, if_pos hsup, if_neg hseen]
                refine List.Pairwise.cons ?_ ihx.2
                intro b hb hfam
                exact (ihx.1 b hb).2 (by simp [← hfam])
          · by_cases hund : Session.startsWithUnderscore role = true
            · simpa [Session.resolveActiveRolesGo, hsup, hund] using ih seen
            · simpa [Session.resolveActiveRolesGo, hsup, hund] using ih seen

/-- Claim C6, counterexample.  The claim says an entry whose family was
already admitted is skipped (producing nothing), before the
server-supported-set test.  The code tests server support first and emits any
unknown non-underscore string to `unsupportedRoles` even when its family was
already admitted: on `["player@v1", "player@v2"]` the claim therefore entails
`unsupportedRoles = []`, but the resolver returns
`unsupportedRoles = ["player@v2"]`. -/
theorem C6_counterexample :
    Session.resolveActiveRoles
        [Session.RoleEntry.str "player@v1", Session.RoleEntry.str "player@v2"] =
      (["player@v1"], ["player@v2"]) ∧
    (Session.resolveActiveRoles
        [Session.RoleEntry.str "player@v1", Session.RoleEntry.str "player@v2"]).2 ≠ [] := by
  decide

/-- Claim C6, amended.  The resolver iterates entries in order: non-string
entries produce nothing; an entry whose exact literal is in the
server-supported set is admitted iff its family (the part before `'@'`) has
not already been admitted (`activeRoles` is exactly the by-family
deduplication of the server-supported string entries); every *unknown* string
entry that does not start with `'_'` is emitted to `unsupportedRoles` — even
when its family was already admitted, as on `["player@v1", "player@v2"]`,
which yields `unsupportedRoles = ["player@v2"]`.  Consequently every admitted
role is server-supported and each family appears at most once in
`active_roles`. -/
theorem C6_role_resolution :
    (∀ entries : List Session.RoleEntry,
      Session.resolveActiveRoles entries =
        (Session.dedupByFamily (Session.supportedStringEntries entries),
         Session.unknownStringEntries entries)) ∧
    (∀ entries : List Session.RoleEntry,
      ∀ r ∈ (Session.resolveActiveRoles entries).1, r ∈ Session.serverSupportedRoles) ∧
    (∀ entries : List Session.RoleEntry,
      ((Session.resolveActiveRoles entries).1).Pairwise
        (fun a b => Session.roleFamily a ≠ Session.roleFamily b)) ∧
    Session.resolveActiveRoles
        [Session.RoleEntry.str "player@v1", Session.RoleEntry.str "player@v2"] =
      (["player@v1"], ["player@v2"]) := by
  refine ⟨?_, ?_, ?_, by decide⟩
  · intro entries
    have h1 := resolveActiveRolesGo_active entries []
    have h2 := resolveActiveRolesGo_unsupported entries []
    unfold Session.resolveActiveRoles Session.dedupByFamily
    exact Prod.ext h1 h2
  · intro entries r hr
    exact ((resolveActiveRolesGo_active_inv entries []).1 r hr).1
  · intro entries
    exact (resolveActiveRolesGo_active_inv entries []).2

/-- Claim C6, witness: the admitted-roles-are-server-supported component
applied at a concrete entry list. -/
theorem C6_role_resolution_witness :
    "player@v1" ∈ Session.serverSupportedRoles :=
  C6_role_resolution.2.1 [Session.RoleEntry.str "player@v1"] "player@v1" (by decide)

/-! ### Client stream/start is not atomic on invalid formats (claim C10) -/

theorem mkPCMFormat_invalid (sampleRate channels bitDepth : ℚ)
    (h : channels < 1 ∨ 2 < channels ∨
      ¬(bitDepth = 16 ∨ bitDepth = 24 ∨ bitDepth = 32)) :
    Client.mkPCMFormat sampleRate channels bitDepth = none := by
  unfold Client.mkPCMFormat
  split_ifs with h1 h2 h3 <;> first | rfl | tauto

/-- Claim C10.  When a `stream/start` carries a player payload whose
`channels` is outside `1..2` or whose `bit_depth` is outside `{16, 24, 32}`,
the client marks the stream active *before* the `PCMFormat` constructor
throws: afterwards `streamActive = true` while `currentAudioFormat` is still
unset, stream-start listeners were not notified and no `client/time` kick was
sent; every subsequent binary frame (in particular `AUDIO_CHUNK`) is then
dropped, because audio-chunk dispatch requires a configured audio format. -/
theorem C10_stream_start_not_atomic (c : Client.SendspinClient)
    (player : Client.StreamStartPlayer)
    (hfmt : c.currentAudioFormat = none)
    (hbad : player.channels < 1 ∨ 2 < player.channels ∨
      ¬(player.bit_depth = 16 ∨ player.bit_depth = 24 ∨ player.bit_depth = 32)) :
    (Client.handleStreamStart c (some player)).streamActive = true ∧
    (Client.handleStreamStart c (some player)).currentAudioFormat = none ∧
    (Client.handleStreamStart c (some player)).streamStartNotifications =
      c.streamStartNotifications ∧
    (Client.handleStreamStart c (some player)).timeMessagesSent = c.timeMessagesSent ∧
    ∀ frame : List ℕ,
      (Client.handleBinaryMessage (Client.handleStreamStart c (some player))
          frame).audioChunksDelivered =
        (Client.handleStreamStart c (some player)).audioChunksDelivered := by
  have hmk : Client.mkPCMFormat player.sample_rate player.channels player.bit_depth =
      none := mkPCMFormat_invalid _ _ _ hbad
  have hss : Client.handleStreamStart c (some player) = { c with streamActive := true } := by
    simp [Client.handleStreamStart, hmk]
  rw [hss]
  refine ⟨rfl, hfmt, rfl, rfl, ?_⟩
  intro frame
  cases hdr : Binary.unpackBinaryHeader frame with
  | none => simp [Client.handleBinaryMessage, hdr]
  | some header =>
      by_cases htyp : header.messageType = Binary.AUDIO_CHUNK
      · simp [Client.handleBinaryMessage, hdr, htyp, Client.handleAudioChunk, hfmt]
      · simp [Client.handleBinaryMessage, hdr, htyp]

/-- Claim C10, witness: a fresh client receiving a `stream/start` whose
player payload requests 3 channels. -/
theorem C10_stream_start_not_atomic_witness :
    (Client.handleStreamStart Client.freshClient
      (some { codec := AudioCodec.pcm, sample_rate := 48000, channels := 3,
              bit_depth := 16, codec_header := none })).streamActive = true ∧
    (Client.handleStreamStart Client.freshClient
      (some { codec := AudioCodec.pcm, sample_rate := 48000, channels := 3,
              bit_depth := 16, codec_header := none })).currentAudioFormat = none ∧
    (Client.handleStreamStart Client.freshClient
      (some { codec := AudioCodec.pcm, sample_rate := 48000, channels := 3,
              bit_depth := 16, codec_header := none })).streamStartNotifications =
      Client.freshClient.streamStartNotifications ∧
    (Client.handleStreamStart Client.freshClient
      (some { codec := AudioCodec.pcm, sample_rate := 48000, channels := 3,
              bit_depth := 16, codec_header := none })).timeMessagesSent =
      Client.freshClient.timeMessagesSent ∧
    ∀ frame : List ℕ,
      (Client.handleBinaryMessage (Client.handleStreamStart Client.freshClient
          (some { codec := AudioCodec.pcm, sample_rate := 48000, channels := 3,
                  bit_depth := 16, codec_header := none })) frame).audioChunksDelivered =
        (Client.handleStreamStart Client.freshClient
          (some { codec := AudioCodec.pcm, sample_rate := 48000, channels := 3,
                  bit_depth := 16, codec_header := none })).audioChunksDelivered :=
  C10_stream_start_not_atomic Client.freshClient
    { codec := AudioCodec.pcm, sample_rate := 48000, channels := 3,
      bit_depth := 16, codec_header := none } rfl (by norm_num)


/-! ### Identification invariants (claim C7) -/

theorem maybeNotifyIdentified_inv (s : Session.SessionState)
    (h : Session.IdentInvariant s) :
    Session.IdentInvariant (Session.maybeNotifyIdentified s) := by
  obtain ⟨ha, hb, hc⟩ := h
  unfold Session.maybeNotifyIdentified
  split_ifs with h1 h2 h3
  · exact ⟨ha, hb, hc⟩
  · exact ⟨ha, hb, hc⟩
  · exact ⟨ha, hb, hc⟩
  · push_neg at h2 h3
    have hid : s.identified = false := by
      cases hi : s.identified
      · rfl
      · exact absurd hi h1
    have hn : s.identifiedNotifications = 0 := by
      rw [hc, hid]
      rfl
    refine ⟨fun _ => h2.1, fun _ => ?_, ?_⟩
    · cases hreq : s.initialStateRequired
      · exact Or.inl rfl
      · exact Or.inr (h3 hreq)
    · show s.identifiedNotifications + 1 = if true = true then 1 else 0
      simp [hn]

theorem startInitialStateTimeout_inv (s : Session.SessionState)
    (h : Session.IdentInvariant s) :
    Session.IdentInvariant (Session.startInitialStateTimeout s) := by
  unfold Session.startInitialStateTimeout
  split_ifs <;> exact h

theorem closeWs_inv (s : Session.SessionState) (code : ℕ) (reason : String)
    (h : Session.IdentInvariant s) :
    Session.IdentInvariant (Session.closeWs s code reason) := h

theorem handleHello_inv (s : Session.SessionState) (p : Session.HelloPayload)
    (hready : s.ready = false) (h : Session.IdentInvariant s) :
    Session.IdentInvariant (Session.handleHello s p) := by
  have hid : s.identified = false := by
    rcases h with ⟨h1, -, -⟩
    cases hi : s.identified
    · rfl
    · rw [h1 hi] at hready; cases hready
  have hn : s.identifiedNotifications = 0 := by
    rcases h with ⟨-, -, h3⟩
    rw [h3, hid]
    rfl
  by_cases hv : p.version = some 1
  case neg =>
    rw [handleHello_badVersion s p hv]
    exact h
  case pos =>
  by_cases hcid : Session.helloTrimmedClientId p = ""
  case pos =>
    rw [handleHello_badClientId s p hv hcid]
    exact h
  case neg =>
  by_cases hroles : p.supported_roles.getD [] = []
  case pos =>
    rw [handleHello_badRoles s p hv hcid hroles]
    exact h
  case neg =>
  by_cases h4 : "player@v1" ∈ (Session.resolveActiveRoles (p.supported_roles.getD [])).1 ∧
      ¬ p.playerSupport = true
  case pos =>
    rw [handleHello_missingPlayer s p hv hcid hroles h4]
    exact h
  case neg =>
  by_cases h5 : "artwork@v1" ∈ (Session.resolveActiveRoles (p.supported_roles.getD [])).1 ∧
      ¬ p.artworkSupport = true
  case pos =>
    rw [handleHello_missingArtwork s p hv hcid hroles h4 h5]
    exact h
  case neg =>
  by_cases h6 : "visualizer@v1" ∈ (Session.resolveActiveRoles (p.supported_roles.getD [])).1 ∧
      ¬ p.visualizerSupport = true
  case pos =>
    rw [handleHello_missingVisualizer s p hv hcid hroles h4 h5 h6]
    exact h
  case neg =>
  by_cases h7 : "source@v1" ∈ (Session.resolveActiveRoles (p.supported_roles.getD [])).1 ∧
      ¬ p.sourceSupport = true
  case pos =>
    rw [handleHello_missingSource s p hv hcid hroles h4 h5 h6 h7]
    exact h
  case neg =>
    rw [handleHello_accepted s p hv hcid hroles h4 h5 h6 h7]
    apply maybeNotifyIdentified_inv
    apply startInitialStateTimeout_inv
    refine ⟨?_, ?_, ?_⟩ <;> simp [hid, hn]

theorem handleClientState_inv (s : Session.SessionState)
    (h : Session.IdentInvariant s) :
    Session.IdentInvariant (Session.handleClientState s) := by
  have hinner : Session.IdentInvariant
      (Session.maybeNotifyIdentified
        { s with initialStateReceived := true, initialStateTimerArmed := false }) := by
    apply maybeNotifyIdentified_inv
    rcases h with ⟨ha, hb, hc⟩
    exact ⟨ha, fun _ => Or.inr rfl, hc⟩
  unfold Session.handleClientState
  split_ifs with h1 <;> first | exact h | exact hinner

theorem handleText_inv (s : Session.SessionState) (m : Session.InboundMessage)
    (h : Session.IdentInvariant s) :
    Session.IdentInvariant (Session.handleText s m) := by
  have hready : ¬ s.ready = true → s.ready = false := by
    intro h1
    cases hr : s.ready
    · rfl
    · exact absurd hr h1
  cases m with
  | hello p =>
      unfold Session.handleText
      split_ifs with h1 <;>
        first
          | exact h
          | exact handleHello_inv s p (hready h1) h
  | clientTime =>
      unfold Session.handleText
      split_ifs <;> exact h
  | clientState =>
      unfold Session.handleText
      split_ifs <;> first | exact handleClientState_inv s h | exact h
  | clientCommand =>
      unfold Session.handleText
      split_ifs <;> exact h
  | clientGoodbye =>
      unfold Session.handleText
      split_ifs <;> exact h
  | streamRequestFormat =>
      unfold Session.handleText
      split_ifs <;> exact h
  | other =>
      unfold Session.handleText
      split_ifs <;> exact h

theorem setHooks_inv (s : Session.SessionState) (hasOnIdentified : Bool)
    (h : Session.IdentInvariant s) :
    Session.IdentInvariant (Session.setHooks s hasOnIdentified) := by
  unfold Session.setHooks
  exact maybeNotifyIdentified_inv _ h

theorem initialStateTimerFire_inv (s : Session.SessionState)
    (h : Session.IdentInvariant s) :
    Session.IdentInvariant (Session.initialStateTimerFire s) := by
  unfold Session.initialStateTimerFire
  split_ifs <;> exact h

theorem sendBinary_inv (s : Session.SessionState) (buf : List ℕ) (allowDrop : Bool)
    (h : Session.IdentInvariant s) :
    Session.IdentInvariant (Session.sendBinary s buf allowDrop) := by
  unfold Session.sendBinary
  split_ifs <;> exact h

theorem ensureStreamStarted_inv (s : Session.SessionState)
    (h : Session.IdentInvariant s) :
    Session.IdentInvariant (Session.ensureStreamStarted s) := by
  unfold Session.ensureStreamStarted
  split_ifs <;> exact h

theorem sendPcmAudioFrame_inv (s : Session.SessionState) (frameData : List ℕ)
    (frameTimestampUs : Option ℤ) (nowUs : ℤ) (h : Session.IdentInvariant s) :
    Session.IdentInvariant (Session.sendPcmAudioFrame s frameData frameTimestampUs nowUs).1 := by
  simp only [Session.sendPcmAudioFrame]
  split_ifs <;>
    first
      | exact h
      | exact ensureStreamStarted_inv s h
      | exact sendBinary_inv _ _ _ (ensureStreamStarted_inv s h)

theorem runPcmRetry_inv (s : Session.SessionState) (retry : Session.PcmRetry)
    (nowUs : ℤ) (h : Session.IdentInvariant s) :
    Session.IdentInvariant (Session.runPcmRetry s retry nowUs) := by
  simp only [Session.runPcmRetry]
  split_ifs <;> first | exact h | exact sendBinary_inv _ _ _ h

theorem sendArtwork_inv (s : Session.SessionState) (channel : ℕ)
    (imageData : Option (List ℕ)) (nowUs : ℤ) (h : Session.IdentInvariant s) :
    Session.IdentInvariant (Session.sendArtwork s channel imageData nowUs) := by
  cases imageData <;>
    (simp only [Session.sendArtwork]
     split_ifs <;> first | exact h | exact sendBinary_inv _ _ _ h)

theorem sendVisualizerFrame_inv (s : Session.SessionState) (data : List ℕ)
    (timestampUs : Option ℤ) (nowUs : ℤ) (h : Session.IdentInvariant s) :
    Session.IdentInvariant (Session.sendVisualizerFrame s data timestampUs nowUs) := by
  simp only [Session.sendVisualizerFrame]
  split_ifs <;> first | exact h | exact sendBinary_inv _ _ _ h

theorem applyOp_inv (s : Session.SessionState) (op : Session.SessionOp)
    (h : Session.IdentInvariant s) :
    Session.IdentInvariant (Session.applyOp s op) := by
  cases op with
  | text m => exact handleText_inv s m h
  | hooks hasOnIdentified => exact setHooks_inv s hasOnIdentified h
  | destroySession => exact h
  | timerFire => exact initialStateTimerFire_inv s h
  | pcm frameData frameTimestampUs nowUs =>
      exact sendPcmAudioFrame_inv s frameData frameTimestampUs nowUs h
  | pcmRetry retry nowUs => exact runPcmRetry_inv s retry nowUs h
  | artwork channel imageData nowUs => exact sendArtwork_inv s channel imageData nowUs h
  | visualizer data timestampUs nowUs =>
      exact sendVisualizerFrame_inv s data timestampUs nowUs h
  | transportSet isOpen buffered => exact h

theorem foldl_applyOp_inv (ops : List Session.SessionOp) :
    ∀ s : Session.SessionState, Session.IdentInvariant s →
      Session.IdentInvariant (ops.foldl Session.applyOp s) := by
  induction ops with
  | nil => intro s h; exact h
  | cons op rest ih =>
      intro s h
      exact ih _ (applyOp_inv s op h)

/-- Claim C7.  Over every sequence of session operations (inbound text,
hook registration, destroy, timer firings, sends, transport changes) applied
to a freshly constructed session, `identified` implies `ready`, `identified`
implies that the initial state was either not required or has been received,
and the `onIdentified` hook has been invoked at most once. -/
theorem C7_identified_invariants (reason : ConnectionReason) (hasHook : Bool)
    (buffered : ℕ) (ops : List Session.SessionOp) :
    ((ops.foldl Session.applyOp
        (Session.initialSession reason hasHook buffered)).identified = true →
      (ops.foldl Session.applyOp
        (Session.initialSession reason hasHook buffered)).ready = true) ∧
    ((ops.foldl Session.applyOp
        (Session.initialSession reason hasHook buffered)).identified = true →
      ((ops.foldl Session.applyOp
          (Session.initialSession reason hasHook buffered)).initialStateRequired = false ∨
       (ops.foldl Session.applyOp
          (Session.initialSession reason hasHook buffered)).initialStateReceived = true)) ∧
    (ops.foldl Session.applyOp
        (Session.initialSession reason hasHook buffered)).identifiedNotifications ≤ 1 := by
  have h0 : Session.IdentInvariant (Session.initialSession reason hasHook buffered) := by
    refine ⟨?_, ?_, ?_⟩ <;> simp [Session.initialSession]
  have h := foldl_applyOp_inv ops _ h0
  rcases h with ⟨h1, h2, h3⟩
  refine ⟨h1, h2, ?_⟩
  rw [h3]
  split_ifs <;> norm_num

/-- Claim C7, witness: the invariants instantiated on a concrete run — hooks
attached, a valid player hello, then the initial `client/state`. -/
theorem C7_identified_invariants_witness :
    (([Session.SessionOp.hooks true,
       Session.SessionOp.text (Session.InboundMessage.hello
         { version := some 1, client_id := some "c1", name := none,
           supported_roles := some [Session.RoleEntry.str "player@v1"],
           playerSupport := true, artworkSupport := false,
           visualizerSupport := false, sourceSupport := false }),
       Session.SessionOp.text Session.InboundMessage.clientState].foldl Session.applyOp
        (Session.initialSession ConnectionReason.discovery false 0)).identified = true →
      (([Session.SessionOp.hooks true,
       Session.SessionOp.text (Session.InboundMessage.hello
         { version := some 1, client_id := some "c1", name := none,
           supported_roles := some [Session.RoleEntry.str "player@v1"],
           playerSupport := true, artworkSupport := false,
           visualizerSupport := false, sourceSupport := false }),
       Session.SessionOp.text Session.InboundMessage.clientState].foldl Session.applyOp
        (Session.initialSession ConnectionReason.discovery false 0)).ready = true)) ∧
    ([Session.SessionOp.hooks true,
      Session.SessionOp.text (Session.InboundMessage.hello
        { version := some 1, client_id := some "c1", name := none,
          supported_roles := some [Session.RoleEntry.str "player@v1"],
          playerSupport := true, artworkSupport := false,
          visualizerSupport := false, sourceSupport := false }),
      Session.SessionOp.text Session.InboundMessage.clientState].foldl Session.applyOp
        (Session.initialSession ConnectionReason.discovery false 0)).identifiedNotifications ≤ 1 :=
  ⟨(C7_identified_invariants ConnectionReason.discovery false 0 _).1,
   (C7_identified_invariants ConnectionReason.discovery false 0 _).2.2⟩



/-! ### Rejected hello is not atomic (claim C9) -/

/-- Claim C9.  A `client/hello` that fails validation at the
`supported_roles` check or at a capability check closes the socket but does
not roll back session state: `getClientId()` already returns the (trimmed)
client id parsed from the rejected hello; after a capability failure
`getRoles()` returns the roles resolved from it, even though `ready` stays
`false`; and a registry `getSession` lookup by that client id matches the
rejected session. -/
theorem C9_rejected_hello_not_atomic :
    rejectedSessionRoles.wsCloseCalls = [some (1008, "missing supported_roles")] ∧
    rejectedSessionRoles.clientId = some "c1" ∧
    rejectedSessionRoles.ready = false ∧
    rejectedSessionCapability.wsCloseCalls = [some (1008, "missing player support")] ∧
    rejectedSessionCapability.clientId = some "c1" ∧
    rejectedSessionCapability.roles = ["player@v1"] ∧
    rejectedSessionCapability.ready = false ∧
    Core.getSession { sessions := [rejectedSessionCapability] } "c1" =
      some rejectedSessionCapability := by
  decide

/-! ### Backpressure (claim C2) -/

theorem ensureStreamStarted_wsOpen (s : Session.SessionState) :
    (Session.ensureStreamStarted s).wsOpen = s.wsOpen := by
  unfold Session.ensureStreamStarted
  split_ifs <;> rfl

theorem ensureStreamStarted_wsBufferedAmount (s : Session.SessionState) :
    (Session.ensureStreamStarted s).wsBufferedAmount = s.wsBufferedAmount := by
  unfold Session.ensureStreamStarted
  split_ifs <;> rfl

theorem ensureStreamStarted_wsBinarySent (s : Session.SessionState) :
    (Session.ensureStreamStarted s).wsBinarySent = s.wsBinarySent := by
  unfold Session.ensureStreamStarted
  split_ifs <;> rfl

/-- Claim C2, counterexample.  With 600 KiB buffered (above the 512 KiB
`MAX_BUFFERED`), `sendPcmAudioFrame` writes nothing immediately and schedules
the 5 ms retry — but when the retry callback runs with the buffered amount
unchanged, it re-checks only the OPEN state and writes the frame anyway,
without `allowDrop` and without incrementing the drop counter: a binary frame
is written to the transport while the buffered amount exceeds `MAX_BUFFERED`,
contradicting both the claimed invariant and the claim that the retry
re-checks the buffered amount. -/
theorem C2_counterexample :
    Session.maxBufferedSend < backloggedSession.wsBufferedAmount ∧
    (Session.sendPcmAudioFrame backloggedSession [1, 2] none 0).1.wsBinarySent = [] ∧
    (Session.sendPcmAudioFrame backloggedSession [1, 2] none 0).2 =
      some { data := [1, 2], timestampUs := none } ∧
    (Session.runPcmRetry (Session.sendPcmAudioFrame backloggedSession [1, 2] none 0).1
        { data := [1, 2], timestampUs := none } 0).wsBufferedAmount = 600 * 1024 ∧
    (Session.runPcmRetry (Session.sendPcmAudioFrame backloggedSession [1, 2] none 0).1
        { data := [1, 2], timestampUs := none } 0).wsBinarySent =
      [packBinaryHeaderRaw AUDIO_CHUNK 0 ++ [1, 2]] ∧
    (Session.runPcmRetry (Session.sendPcmAudioFrame backloggedSession [1, 2] none 0).1
        { data := [1, 2], timestampUs := none } 0).backpressureDrops = 0 := by
  decide

/-- Claim C2, amended.  The immediate `sendPcmAudioFrame` path never writes
while the buffered amount exceeds `MAX_BUFFERED`: it schedules a single 5 ms
retry instead (when the socket is OPEN).  The retry re-checks only the OPEN
state — not the buffered amount — and then writes the frame unconditionally
through `sendBinary` without `allowDrop`.  `sendBinary` drops-and-counts only
when the caller passes `allowDrop` (which no session send operation does);
otherwise, on an OPEN socket it writes regardless of the buffered amount — in
particular artwork and visualizer frames are always written while OPEN.  All
sends are no-ops on a non-OPEN socket. -/
theorem C2_backpressure_behavior :
    (∀ (s : Session.SessionState) (data : List ℕ) (ts : Option ℤ) (now : ℤ),
      s.wsBufferedAmount > Session.maxBufferedSend →
      (Session.sendPcmAudioFrame s data ts now).1.wsBinarySent = s.wsBinarySent ∧
      (Session.sendPcmAudioFrame s data ts now).2 =
        (if s.wsOpen = true then some { data := data, timestampUs := ts } else none)) ∧
    (∀ (s : Session.SessionState) (retry : Session.PcmRetry) (now : ℤ),
      s.wsOpen = true →
      (Session.runPcmRetry s retry now).wsBinarySent =
        s.wsBinarySent ++
          [packBinaryHeaderRaw AUDIO_CHUNK (retry.timestampUs.getD now) ++ retry.data]) ∧
    (∀ (s : Session.SessionState) (retry : Session.PcmRetry) (now : ℤ),
      s.wsOpen = false → Session.runPcmRetry s retry now = s) ∧
    (∀ (s : Session.SessionState) (buf : List ℕ),
      s.wsOpen = true → s.wsBufferedAmount > Session.maxBufferedSend →
      Session.sendBinary s buf true =
        { s with backpressureDrops := s.backpressureDrops + 1,
                 lastBackpressureBytes := s.wsBufferedAmount }) ∧
    (∀ (s : Session.SessionState) (buf : List ℕ) (allowDrop : Bool),
      s.wsOpen = false → Session.sendBinary s buf allowDrop = s) ∧
    (∀ (s : Session.SessionState) (channel : ℕ) (bytes : List ℕ) (now : ℤ),
      s.ready = true → s.wsOpen = true →
      (Session.sendArtwork s channel (some bytes) now).wsBinarySent =
        s.wsBinarySent ++
          [packBinaryHeaderRaw (ARTWORK_CHANNEL_0 + channel) now ++ bytes]) ∧
    (∀ (s : Session.SessionState) (data : List ℕ) (ts : Option ℤ) (now : ℤ),
      s.ready = true → s.wsOpen = true → "visualizer@v1" ∈ s.roles →
      (Session.sendVisualizerFrame s data ts now).wsBinarySent =
        s.wsBinarySent ++
          [packBinaryHeaderRaw VISUALIZATION_DATA (ts.getD now) ++ data]) := by
  refine ⟨?_, ?_, ?_, ?_, ?_, ?_, ?_⟩
  · intro s data ts now hbuf
    by_cases hopen : s.wsOpen = true
    · constructor
      · simp [Session.sendPcmAudioFrame, hopen, ensureStreamStarted_wsBufferedAmount,
          ensureStreamStarted_wsBinarySent, hbuf]
      · simp [Session.sendPcmAudioFrame, hopen, ensureStreamStarted_wsBufferedAmount, hbuf]
    · simp [Session.sendPcmAudioFrame, hopen]
  · intro s retry now hopen
    simp [Session.runPcmRetry, Session.sendBinary, hopen]
  · intro s retry now hopen
    simp [Session.runPcmRetry, hopen]
  · intro s buf hopen hbuf
    simp [Session.sendBinary, hopen, hbuf]
  · intro s buf allowDrop hopen
    simp [Session.sendBinary, hopen]
  · intro s channel bytes now hready hopen
    simp [Session.sendArtwork, Session.sendBinary, hready, hopen]
  · intro s data ts now hready hopen hmem
    simp [Session.sendVisualizerFrame, Session.sendBinary, hready, hopen, hmem]

/-- Claim C2, witness: the retry-writes-anyway component applied at the
backlogged session (600 KiB buffered, socket OPEN). -/
theorem C2_backpressure_behavior_witness :
    (Session.runPcmRetry backloggedSession { data := [9], timestampUs := none } 5).wsBinarySent =
      backloggedSession.wsBinarySent ++ [packBinaryHeaderRaw AUDIO_CHUNK 5 ++ [9]] :=
  C2_backpressure_behavior.2.1 backloggedSession { data := [9], timestampUs := none } 5 rfl


end Sendspin
